import Mathlib

/-!
Verification of the SmartClinic ReAct agent core
(`react_agent.py`, `tools.py`, `main.py`).

The Python code is shallowly embedded: JSON-like dynamic values become the
inductive `JVal`; Python dictionaries become association lists; code that can
raise is written in `Except String`, with each `try/except` an explicit
catch; the two external collaborators (the language-model endpoint and the
hospital REST endpoints) are oracles bundled in `Env`.  Machine-visible side
effects that the claims talk about (outbound HTTP requests, language-model
calls) are returned explicitly: every tool returns the list of requests it
issued, and `chat` returns the number of language-model calls it attempted.
-/

set_option autoImplicit false

namespace SmartClinic

/-- JSON-like dynamic value (the payloads `res.json()` returns, the values a
parsed model response holds, and the dictionaries the agent passes around).
Numbers are modelled as integers: the JSON grammar is accepted in full by the
parser below, but a fractional or exponent part only affects the stored
integer part, which no behaviour relevant to the claims depends on. -/
inductive JVal where
  | null : JVal
  | bool : Bool → JVal
  | num : Int → JVal
  | str : String → JVal
  | arr : List JVal → JVal
  | obj : List (String × JVal) → JVal
  deriving Repr, Inhabited

/-- One conversation turn: `{"role": ..., "content": ...}`.  The content is a
`JVal` because the Python code appends whatever value a branch produced. -/
structure Msg where
  role : String
  content : JVal
  deriving Repr

def mkUser (q : String) : Msg := ⟨"user", .str q⟩

def mkAsst (a : JVal) : Msg := ⟨"assistant", a⟩

/-- An outbound HTTP request issued by a tool. -/
inductive Req where
  | get (url : String)
  | post (url : String) (body : JVal)
  deriving Repr

/-- The external world: the language-model endpoint (`_call_llm`s
`requests.post`), the hospital REST endpoints (`requests.get`/`post` inside
the tools), and the current date (`datetime.now().strftime("%Y-%m-%d")`).
An `Except.error` models a transport/HTTP exception (including
`raise_for_status`). -/
structure Env where
  llm : List Msg → Except String JVal
  http : Req → Except String JVal
  today : String

/-! ## Character-list utilities (Python string operations) -/

/-- Substring test: `needle in hay` on Python strings. -/
def containsSub (needle : List Char) : List Char → Bool
  | [] => needle.isPrefixOf []
  | c :: cs => needle.isPrefixOf (c :: cs) || containsSub needle cs

/-- `any(w in s for w in words)`. -/
def containsAny (words : List String) (s : List Char) : Bool :=
  words.any (fun w => containsSub w.data s)

def lowerL (s : String) : List Char := s.data.map Char.toLower

def upperL (s : String) : List Char := s.data.map Char.toUpper

/-- Python `\s` over ASCII. -/
def isSpaceChar (c : Char) : Bool :=
  c = ' ' || c = '\t' || c = '\n' || c = '\r' || c = '\x0b' || c = '\x0c'

/-- Python `\w` over ASCII: letters, digits, underscore. -/
def isWordChar (c : Char) : Bool :=
  c.isAlphanum || c = '_'

/-- Python `str.split()` with no argument: split on whitespace runs,
dropping empty pieces. -/
def pySplitWs : List Char → List (List Char)
  | [] => []
  | c :: cs =>
      let rest := pySplitWs cs
      if isSpaceChar c then rest
      else
        match cs with
        | [] => [[c]]
        | d :: _ =>
            if isSpaceChar d then [c] :: rest
            else
              match rest with
              | [] => [[c]]
              | w :: ws => (c :: w) :: ws

/-! Search procedures for the concrete regular expressions the agent uses.
All the agent patterns are alternations of literal words separated by `.+`
(or `.?`), searched with `re.search` without `DOTALL`, so `.` excludes
newlines.  `afterGap bs s` holds when, after consuming at least one
non-newline character of `s`, one of the literals `bs` occurs, i.e. it is
the search procedure for `.+(b1|b2|...)` anchored at the start of `s`. -/

def afterGap (bs : List (List Char)) : List Char → Bool
  | [] => false
  | c :: rest =>
      c ≠ '\n' && (bs.any (fun b => b.isPrefixOf rest) || afterGap bs rest)

/-- Search for `(a1|a2|...).+(b1|b2|...)` anywhere in `s`. -/
def seq2 (as bs : List String) : List Char → Bool
  | [] => false
  | c :: rest =>
      (as.any fun a =>
        a.data.isPrefixOf (c :: rest) &&
          afterGap (bs.map String.data) ((c :: rest).drop a.length)) ||
      seq2 as bs rest

/-- `.+(b1|...).+(c1|...)` anchored at the start of `s`. -/
def afterGap2 (bs cs : List (List Char)) : List Char → Bool
  | [] => false
  | c :: rest =>
      c ≠ '\n' &&
        ((bs.any fun b => b.isPrefixOf rest && afterGap cs (rest.drop b.length)) ||
          afterGap2 bs cs rest)

/-- Search for `(a..).+(b..).+(c..)` anywhere in `s`. -/
def seq3 (as bs cs : List String) : List Char → Bool
  | [] => false
  | c :: rest =>
      (as.any fun a =>
        a.data.isPrefixOf (c :: rest) &&
          afterGap2 (bs.map String.data) (cs.map String.data)
            ((c :: rest).drop a.length)) ||
      seq3 as bs cs rest

/-- Search for `w1.?w2` (e.g. `walk.?in`): the two literals, optionally
separated by exactly one non-newline character. -/
def optSep (w1 w2 : String) : List Char → Bool
  | [] => false
  | c :: rest =>
      (w1.data.isPrefixOf (c :: rest) &&
        (w2.data.isPrefixOf ((c :: rest).drop w1.length) ||
          match (c :: rest).drop w1.length with
          | [] => false
          | d :: rest2 => d ≠ '\n' && w2.data.isPrefixOf rest2)) ||
      optSep w1 w2 rest

/-! ## Python-semantics helpers over `JVal` -/

/-- Python truthiness of a JSON-like value. -/
def truthy : JVal → Bool
  | .null => false
  | .bool b => b
  | .num n => n != 0
  | .str s => s ≠ ""
  | .arr l => !l.isEmpty
  | .obj l => !l.isEmpty

/-- `d.get(k, default)` on a dict value; raises `AttributeError` when the
receiver is not a dict. -/
def pyGet (j : JVal) (k : String) (d : JVal) : Except String JVal :=
  match j with
  | .obj kvs => .ok ((kvs.lookup k).getD d)
  | _ => .error "AttributeError: get"

/-- `d[k]` on a dict value; `KeyError` when missing, `TypeError` otherwise. -/
def pySub (j : JVal) (k : String) : Except String JVal :=
  match j with
  | .obj kvs =>
      match kvs.lookup k with
      | some v => .ok v
      | none => .error ("KeyError: " ++ k)
  | _ => .error "TypeError: subscript"

/-- `k in j` for a string `k`: key membership on dicts, element membership on
lists, substring on strings, `TypeError` otherwise. -/
def pyIn (k : String) (j : JVal) : Except String Bool :=
  match j with
  | .obj kvs => .ok ((kvs.lookup k).isSome)
  | .arr xs => .ok (xs.any (fun x => match x with | .str s => s == k | _ => false))
  | .str s => .ok (containsSub k.data s.data)
  | _ => .error "TypeError: in"

/-- `len(j)`: defined for strings, lists and dicts, `TypeError` otherwise. -/
def pyLen (j : JVal) : Except String Nat :=
  match j with
  | .str s => .ok s.length
  | .arr xs => .ok xs.length
  | .obj kvs => .ok kvs.length
  | _ => .error "TypeError: len"

/-- Iterating a value (`for x in j`): lists yield their elements, strings
their characters, dicts their keys; other values raise `TypeError`. -/
def pyIter (j : JVal) : Except String (List JVal) :=
  match j with
  | .arr xs => .ok xs
  | .str s => .ok (s.data.map (fun c => .str (String.mk [c])))
  | .obj kvs => .ok (kvs.map (fun kv => .str kv.1))
  | _ => .error "TypeError: not iterable"

/-- `j[:5]`: slicing is defined for lists and strings, `TypeError`
otherwise; the result is returned as the list of elements it yields. -/
def pySliceTake (n : Nat) (j : JVal) : Except String (List JVal) :=
  match j with
  | .arr xs => .ok (xs.take n)
  | .str s => .ok ((s.data.take n).map (fun c => .str (String.mk [c])))
  | _ => .error "TypeError: slice"

/-- A value used where Python requires `str` (e.g. an operand of `+` with a
string, or an element of `str.join`): anything else raises `TypeError`. -/
def asStr (j : JVal) : Except String String :=
  match j with
  | .str s => .ok s
  | _ => .error "TypeError: expected str"

/-- `sep.join(values)` where every element must be a string. -/
def joinStrs (sep : String) : List JVal → Except String String
  | [] => .ok ""
  | v :: vs => do
      let s ← asStr v
      let r ← joinMore sep vs
      .ok (s ++ r)
where
  joinMore (sep : String) : List JVal → Except String String
    | [] => .ok ""
    | v :: vs => do
        let s ← asStr v
        let r ← joinMore sep vs
        .ok (sep ++ s ++ r)

/-- `str(v)` as used in f-string interpolation.  For the container cases the
Python `repr` uses single quotes; the claims never interpolate containers, so
a JSON-style rendering stands in for them. -/
def pyStr : JVal → String
  | .null => "None"
  | .bool b => if b then "True" else "False"
  | .num n => toString n
  | .str s => s
  | .arr xs => "[" ++ String.intercalate ", " (xs.map pyStrQ) ++ "]"
  | .obj kvs =>
      String.mk ['\x7b'] ++
        String.intercalate ", "
          (kvs.map (fun kv => pyStrQ (.str kv.1) ++ ": " ++ pyStrQ kv.2)) ++
        String.mk ['\x7d']
where
  pyStrQ : JVal → String
    | .null => "None"
    | .bool b => if b then "True" else "False"
    | .num n => toString n
    | .str s => String.mk ['\x27'] ++ s ++ String.mk ['\x27']
    | .arr _ => "[...]"
    | .obj _ => String.mk ['\x7b', '.', '.', '.', '\x7d']

mutual

/-- `json.dumps(v)` (no indentation; only feeds oracle prompts and logs, so
the exact whitespace is irrelevant to every claim). -/
def jsonDumps : JVal → String
  | .null => "null"
  | .bool b => if b then "true" else "false"
  | .num n => toString n
  | .str s => "\"" ++ s ++ "\""
  | .arr xs => "[" ++ jsonDumpsItems xs ++ "]"
  | .obj kvs => String.mk ['\x7b'] ++ jsonDumpsMembers kvs ++ String.mk ['\x7d']

def jsonDumpsItems : List JVal → String
  | [] => ""
  | [x] => jsonDumps x
  | x :: xs => jsonDumps x ++ ", " ++ jsonDumpsItems xs

def jsonDumpsMembers : List (String × JVal) → String
  | [] => ""
  | [(k, v)] => "\"" ++ k ++ "\": " ++ jsonDumps v
  | (k, v) :: kvs => "\"" ++ k ++ "\": " ++ jsonDumps v ++ ", " ++ jsonDumpsMembers kvs

end

/-- `{"error": str(e)}` — the uniform result every tool builds in its
`except` clause. -/
def errObj (e : String) : JVal := .obj [("error", .str e)]

/-- A `try: ... except Exception as e: return {"error": str(e)}` block. -/
def runCatch (x : Except String JVal) : JVal :=
  match x with
  | .ok j => j
  | .error e => errObj e

/-! ## `json.loads`: a fuel-indexed recursive-descent JSON parser. -/

def jSkipWs : List Char → List Char
  | [] => []
  | c :: cs => if c = ' ' || c = '\t' || c = '\n' || c = '\r' then jSkipWs cs else c :: cs

def jHexVal (c : Char) : Option Nat :=
  if '0' ≤ c ∧ c ≤ '9' then some (c.toNat - '0'.toNat)
  else if 'a' ≤ c ∧ c ≤ 'f' then some (c.toNat - 'a'.toNat + 10)
  else if 'A' ≤ c ∧ c ≤ 'F' then some (c.toNat - 'A'.toNat + 10)
  else none

/-- Parse the body of a JSON string literal (after the opening quote). -/
def jParseStr (fuel : Nat) (cs : List Char) : Option (String × List Char) :=
  match fuel, cs with
  | 0, _ => none
  | _, [] => none
  | fuel + 1, c :: cs =>
      if c = '"' then some ("", cs)
      else if c = '\\' then
        match cs with
        | [] => none
        | e :: cs' =>
            let esc : Option (Char × List Char) :=
              if e = '"' then some ('"', cs')
              else if e = '\\' then some ('\\', cs')
              else if e = '/' then some ('/', cs')
              else if e = 'n' then some ('\n', cs')
              else if e = 't' then some ('\t', cs')
              else if e = 'r' then some ('\r', cs')
              else if e = 'b' then some ('\x08', cs')
              else if e = 'f' then some ('\x0c', cs')
              else if e = 'u' then
                match cs' with
                | h1 :: h2 :: h3 :: h4 :: cs'' =>
                    match jHexVal h1, jHexVal h2, jHexVal h3, jHexVal h4 with
                    | some a, some b, some c', some d =>
                        some (Char.ofNat (((a * 16 + b) * 16 + c') * 16 + d), cs'')
                    | _, _, _, _ => none
                | _ => none
              else none
            match esc with
            | none => none
            | some (ch, rest) =>
                match jParseStr fuel rest with
                | some (s, rest') => some (String.mk [ch] ++ s, rest')
                | none => none
      else
        match jParseStr fuel cs with
        | some (s, rest) => some (String.mk [c] ++ s, rest)
        | none => none

def jDigits (cs : List Char) : List Char × List Char :=
  (cs.takeWhile Char.isDigit, cs.dropWhile Char.isDigit)

def jDigitsVal (ds : List Char) : Nat :=
  ds.foldl (fun acc c => acc * 10 + (c.toNat - '0'.toNat)) 0

/-- Parse a JSON number.  The full grammar (sign, fraction, exponent) is
consumed, but only the integer part contributes to the stored value. -/
def jParseNum (cs : List Char) : Option (Int × List Char) :=
  let (neg, cs1) : Bool × List Char :=
    match cs with
    | '-' :: rest => (true, rest)
    | _ => (false, cs)
  match jDigits cs1 with
  | ([], _) => none
  | (ds, rest) =>
      let rest2 :=
        match rest with
        | '.' :: r =>
            match jDigits r with
            | ([], _) => rest
            | (_, r') => r'
        | _ => rest
      let rest3 :=
        match rest2 with
        | e :: r =>
            if e = 'e' || e = 'E' then
              let r' := match r with
                        | s :: r'' => if s = '+' || s = '-' then r'' else r
                        | [] => r
              match jDigits r' with
              | ([], _) => rest2
              | (_, r'') => r''
            else rest2
        | [] => rest2
      let v : Int := Int.ofNat (jDigitsVal ds)
      some (if neg then -v else v, rest3)

mutual

def jParse (fuel : Nat) (cs : List Char) : Option (JVal × List Char) :=
  match fuel with
  | 0 => none
  | fuel + 1 =>
      match jSkipWs cs with
      | [] => none
      | c :: rest =>
          if c = '\x7b' then
            match jSkipWs rest with
            | '\x7d' :: rest' => some (.obj [], rest')
            | rest' =>
                match jParseMembers fuel rest' with
                | some (kvs, rest'') => some (.obj kvs, rest'')
                | none => none
          else if c = '[' then
            match jSkipWs rest with
            | ']' :: rest' => some (.arr [], rest')
            | rest' =>
                match jParseItems fuel rest' with
                | some (xs, rest'') => some (.arr xs, rest'')
                | none => none
          else if c = '"' then
            match jParseStr (cs.length + 1) rest with
            | some (s, rest') => some (.str s, rest')
            | none => none
          else if c = 't' then
            if ['r', 'u', 'e'].isPrefixOf rest then some (.bool true, rest.drop 3) else none
          else if c = 'f' then
            if ['a', 'l', 's', 'e'].isPrefixOf rest then some (.bool false, rest.drop 4) else none
          else if c = 'n' then
            if ['u', 'l', 'l'].isPrefixOf rest then some (.null, rest.drop 3) else none
          else
            match jParseNum (c :: rest) with
            | some (n, rest') => some (.num n, rest')
            | none => none

/-- One or more comma-separated `"key": value` members, ending at `}`. -/
def jParseMembers (fuel : Nat) (cs : List Char) : Option (List (String × JVal) × List Char) :=
  match fuel with
  | 0 => none
  | fuel + 1 =>
      match jSkipWs cs with
      | '"' :: rest =>
          match jParseStr (cs.length + 1) rest with
          | some (k, rest') =>
              match jSkipWs rest' with
              | ':' :: rest'' =>
                  match jParse fuel rest'' with
                  | some (v, rest3) =>
                      match jSkipWs rest3 with
                      | ',' :: rest4 =>
                          match jParseMembers fuel rest4 with
                          | some (kvs, rest5) => some ((k, v) :: kvs, rest5)
                          | none => none
                      | '\x7d' :: rest4 => some ([(k, v)], rest4)
                      | _ => none
                  | none => none
              | _ => none
          | none => none
      | _ => none

/-- One or more comma-separated items, ending at `]`. -/
def jParseItems (fuel : Nat) (cs : List Char) : Option (List JVal × List Char) :=
  match fuel with
  | 0 => none
  | fuel + 1 =>
      match jParse fuel cs with
      | some (v, rest) =>
          match jSkipWs rest with
          | ',' :: rest' =>
              match jParseItems fuel rest' with
              | some (xs, rest'') => some (v :: xs, rest'')
              | none => none
          | ']' :: rest' => some ([v], rest')
          | _ => none
      | none => none

end

/-- `json.loads(s)`: parse one JSON value and require only whitespace after
it. -/
def jsonLoads (s : String) : Option JVal :=
  match jParse (s.length + 1) s.data with
  | some (v, rest) => if jSkipWs rest = [] then some v else none
  | none => none

/-! ## `ParameterCollector` (tools.py) -/

/-- `parameters.get(k)` truthiness: present with a truthy value. -/
def pTruthy (kvs : List (String × JVal)) (k : String) : Bool :=
  match kvs.lookup k with
  | some v => truthy v
  | none => false

/-- `parameters.get(k, d)`. -/
def pGetD (kvs : List (String × JVal)) (k : String) (d : JVal) : JVal :=
  (kvs.lookup k).getD d

/-- `parameters.setdefault(k, v)`: insertion-ordered dicts append new keys at
the end. -/
def setdefault (kvs : List (String × JVal)) (k : String) (v : JVal) : List (String × JVal) :=
  if (kvs.lookup k).isSome then kvs else kvs ++ [(k, v)]

/-- The `required_params` table shared by
`ParameterCollector.validate_parameters` and
`ReActAgent._has_required_parameters`. -/
def requiredParamsTable : List (String × List String) :=
  [("search_by_id_number", ["id_number"]),
   ("get_user_dataset", ["date_from", "date_to", "resource_type"]),
   ("get_session_slots", ["resource_id", "session_date", "session_id"]),
   ("create_walkin", ["resource_id", "session_id", "session_date", "from_time", "patient_id"]),
   ("create_visit", ["appointment_id"]),
   ("get_patient_journey", ["visit_id"]),
   ("get_appointment_followup", ["patient_id", "date_from", "date_to"])]

/-- `ParameterCollector.validate_parameters`: every required parameter must
be present and truthy (empty values fail); tools without an entry validate
trivially. -/
def validateParameters (tool : String) (kvs : List (String × JVal)) : Bool :=
  match requiredParamsTable.lookup tool with
  | none => true
  | some ps => ps.all (fun p => pTruthy kvs p)

/-- `ParameterCollector.get_parameter_requirements`: the canonical
needs-parameters descriptor per tool, with a generic fallback entry. -/
def getParameterRequirements (tool : String) : JVal :=
  if tool = "search_by_id_number" then
    .obj [("needs_parameters", .bool true),
          ("tool_name", .str tool),
          ("required_parameters", .arr [.str "id_number"]),
          ("parameter_descriptions", .obj
            [("id_number", .str "Patient ID number (e.g., \x27DD15021998\x27)")]),
          ("user_message", .str "I need a patient ID number to search for the patient. Please provide the patient ID number.")]
  else if tool = "get_user_dataset" then
    .obj [("needs_parameters", .bool true),
          ("tool_name", .str tool),
          ("required_parameters", .arr [.str "date_from", .str "date_to", .str "resource_type"]),
          ("optional_parameters", .arr [.str "specialty_id", .str "resource_id", .str "clinic_id", .str "from_time", .str "to_time"]),
          ("parameter_descriptions", .obj
            [("date_from", .str "Start date (YYYY-MM-DD format)"),
             ("date_to", .str "End date (YYYY-MM-DD format)"),
             ("resource_type", .str "Resource type (1 for Doctor, 2 for Room)"),
             ("specialty_id", .str "Specialty ID (optional)"),
             ("resource_id", .str "Resource ID (optional)"),
             ("clinic_id", .str "Clinic ID (optional)")]),
          ("user_message", .str "I can search for appointments with today\x27s date and default settings. If you need specific dates or resources, please provide: date range (from/to dates), resource type (1=Doctor, 2=Room), and optionally specialty ID, resource ID, or clinic ID.")]
  else if tool = "get_session_slots" then
    .obj [("needs_parameters", .bool true),
          ("tool_name", .str tool),
          ("required_parameters", .arr [.str "resource_id", .str "session_date", .str "session_id"]),
          ("parameter_descriptions", .obj
            [("resource_id", .str "Doctor/Resource ID (e.g., 2 for Dr. Clement Tan)"),
             ("session_date", .str "Session date (YYYY-MM-DD format)"),
             ("session_id", .str "Session ID (e.g., 363 for PM session)")]),
          ("user_message", .str "To show available appointment slots, I need to know:\n• Which doctor? (Resource ID - e.g., 2 for Dr. Clement Tan)\n• What date? (YYYY-MM-DD format)\n• Which session? (Session ID - e.g., 363 for PM session)\n\nPlease provide these details so I can find the best available slots for you.")]
  else if tool = "create_walkin" then
    .obj [("needs_parameters", .bool true),
          ("tool_name", .str tool),
          ("required_parameters", .arr [.str "patient_id", .str "resource_id", .str "session_date"]),
          ("optional_parameters", .arr [.str "session_id", .str "from_time"]),
          ("parameter_descriptions", .obj
            [("patient_id", .str "Patient ID (required)"),
             ("resource_id", .str "Doctor/Resource ID (e.g., 2 for Dr. Clement Tan)"),
             ("session_date", .str "Appointment date (YYYY-MM-DD format)"),
             ("session_id", .str "Session ID (optional, defaults to 363)"),
             ("from_time", .str "Preferred time (optional, defaults to 07:10:00)")]),
          ("user_message", .str "To create a walk-in appointment, I need:\n• Patient ID (who is the appointment for?)\n• Which doctor? (Resource ID - e.g., 2 for Dr. Clement Tan)\n• What date? (YYYY-MM-DD format)\n\nOptionally, you can specify session ID and preferred time. Please provide at least the required details.")]
  else if tool = "create_visit" then
    .obj [("needs_parameters", .bool true),
          ("tool_name", .str tool),
          ("required_parameters", .arr [.str "appointment_id"]),
          ("parameter_descriptions", .obj
            [("appointment_id", .str "Appointment ID to create visit from")]),
          ("user_message", .str "I need an appointment ID to create a visit. Please provide the appointment ID.")]
  else if tool = "get_patient_journey" then
    .obj [("needs_parameters", .bool true),
          ("tool_name", .str tool),
          ("required_parameters", .arr [.str "visit_id"]),
          ("parameter_descriptions", .obj
            [("visit_id", .str "Visit ID to get journey information for")]),
          ("user_message", .str "I need a visit ID to show the patient journey. Please provide the visit ID.")]
  else if tool = "get_appointment_followup" then
    .obj [("needs_parameters", .bool true),
          ("tool_name", .str tool),
          ("required_parameters", .arr [.str "patient_id", .str "date_from", .str "date_to"]),
          ("parameter_descriptions", .obj
            [("patient_id", .str "Patient ID"),
             ("date_from", .str "Start date (YYYY-MM-DD format)"),
             ("date_to", .str "End date (YYYY-MM-DD format)")]),
          ("user_message", .str "I can search for follow-up appointments with default patient ID and today\x27s date. If you need specific details, please provide: patient ID and date range (from/to dates).")]
  else
    .obj [("needs_parameters", .bool true),
          ("tool_name", .str tool),
          ("user_message", .str ("I need additional information to complete the " ++
            (tool.data.map (fun c => if c = '_' then ' ' else c)).asString ++
            " request. Please provide the required parameters."))]

/-! ## The thirteen tools (tools.py).

Each tool has type `JVal → Env → Except String JVal × List Req`: the
parameters value is whatever object the caller passed (`_act` passes
`action.get("parameters", {})`), the `Except.error` case is an exception
raised by code *outside* the tools own `try` (an attribute access on a
non-dict parameters value), and the request list records every outbound
HTTP call the invocation performed. -/

def specialtyApiEndpoint : String := "http://eserver/api/his/AppointmentsAPI/InitAll"

/-- Filtering loop of `get_doctor_specialties`: keep the entries whose
`DESCRIPTION` (uppercased) contains one of the query terms. -/
def filterSpecialties (queryTerms : List (List Char)) : List JVal → Except String (List JVal)
  | [] => .ok []
  | e :: es => do
      let desc ← pyGet e "DESCRIPTION" (.str "")
      let d ← asStr desc
      let rest ← filterSpecialties queryTerms es
      .ok (if queryTerms.any (fun t => containsSub t (upperL d)) then e :: rest else rest)

def fullListTerms : List String :=
  ["FULL", "ALL", "COMPLETE", "YES", "YEAH", "SURE", "LIST", "SHOW", "MORE"]

def generalQueryTerms : List String :=
  ["AVAILABLE", "LIST", "ALL", "WHAT", "WHICH", "HAVE", "OFFER"]

def specialtyStopWords : List String :=
  ["WHAT", "WHICH", "ARE", "IS", "THE", "DO", "DOES", "YOU", "HAVE", "AVAILABLE",
   "THERE", "ANY", "FOR", "A", "AN", "IN", "AT", "BY", "WITH", "ABOUT", "PLEASE",
   "CAN", "COULD", "WOULD"]

def get_doctor_specialties (p : JVal) (env : Env) : Except String JVal × List Req :=
  let p := match p with
           | .null => .obj [("query", .str "all available specialties")]
           | _ => p
  let req := Req.get specialtyApiEndpoint
  let body : Except String JVal := do
    let j ← env.http req
    let codes ← pyGet j "Codes" (.obj [])
    let allSpecialties ← pyGet codes "SPECIALITY" (.arr [])
    let _ ← pyLen allSpecialties
    let qv ← pyGet p "query" (.str "")
    let qs ← asStr qv
    let query := upperL qs
    let words := pySplitWs query
    let isFullListRequest := fullListTerms.any (fun t => words.contains t.data)
    let isGeneralQuery := generalQueryTerms.any (fun t => containsSub t.data query)
    if isFullListRequest || isGeneralQuery then
      .ok (.obj [("specialties", allSpecialties), ("is_full_list", .bool true)])
    else if query ≠ [] then do
      let queryTerms := (pySplitWs query).filter
        (fun w => !(specialtyStopWords.map String.data).contains w)
      let elems ← pyIter allSpecialties
      let filtered ← filterSpecialties queryTerms elems
      .ok (.obj [("specialties", .arr filtered)])
    else
      .ok (.obj [("specialties", allSpecialties)])
  (.ok (runCatch body), [req])

def activate_sso (_p : JVal) (env : Env) : Except String JVal × List Req :=
  let req := Req.get "http://eserver/api/visitmgmt/Accounts/ActivateSSO?Id=$2a$06$209Th1Z/ZBraqhPa2PIQDeM/7T65Y6Y6MRS6YjefwVomvFAuMwYtG"
  (.ok (runCatch (env.http req)), [req])

def search_by_id_number (p : JVal) (env : Env) : Except String JVal × List Req :=
  match p with
  | .null => (.ok (getParameterRequirements "search_by_id_number"), [])
  | .obj kvs =>
      if !pTruthy kvs "id_number" then
        (.ok (getParameterRequirements "search_by_id_number"), [])
      else if !validateParameters "search_by_id_number" kvs then
        (.ok (getParameterRequirements "search_by_id_number"), [])
      else
        let idNumber := pyStr (pGetD kvs "id_number" (.str "DD15021998"))
        let req := Req.get ("http://eserver/api/clinicaldocs/Codes/SearchText?CodeName=CHECKIDNO&text=" ++ idNumber)
        (.ok (runCatch (env.http req)), [req])
  | _ => (.error "AttributeError: get", [])

def get_today_appointments (_p : JVal) (env : Env) : Except String JVal × List Req :=
  let req := Req.get "http://eserver/api/clinicaldocs/VisitDocs/GetRecordset?VisitId=3598&QueryName=GET_TODAYAPPTS"
  (.ok (runCatch (env.http req)), [req])

def get_ongoing_visits (_p : JVal) (env : Env) : Except String JVal × List Req :=
  let req := Req.get "http://eserver/api/clinicaldocs/VisitDocs/GetRecordset?VisitId=3598&QueryName=GET_ONGOINGVISITS"
  (.ok (runCatch (env.http req)), [req])

def init_appointments (_p : JVal) (env : Env) : Except String JVal × List Req :=
  let req := Req.get "http://eserver/api/his/AppointmentsAPI/InitAll"
  (.ok (runCatch (env.http req)), [req])

def get_user_dataset (p : JVal) (env : Env) : Except String JVal × List Req :=
  let kvs? : Except String (List (String × JVal)) :=
    match p with
    | .null => .ok []
    | .obj kvs => .ok kvs
    | _ => .error "AttributeError: setdefault"
  match kvs? with
  | .error e => (.error e, [])
  | .ok kvs =>
      let today := env.today
      let kvs := setdefault kvs "date_from" (.str today)
      let kvs := setdefault kvs "date_to" (.str today)
      let kvs := setdefault kvs "resource_type" (.str "1")
      if !validateParameters "get_user_dataset" kvs then
        (.ok (getParameterRequirements "get_user_dataset"), [])
      else
        let dateFrom := pGetD kvs "date_from" (.str today)
        let dateTo := pGetD kvs "date_to" (.str today)
        let resourceType := pGetD kvs "resource_type" (.str "1")
        let body : JVal := .obj
          [("RESOURCETYPE", resourceType),
           ("SPECIALITYID", pGetD kvs "specialty_id" .null),
           ("RESOURCEID", pGetD kvs "resource_id" .null),
           ("CLINICID", pGetD kvs "clinic_id" .null),
           ("FROMDATE", dateFrom),
           ("TODATE", dateTo),
           ("FROM_TIME", pGetD kvs "from_time" .null),
           ("TO_TIME", pGetD kvs "to_time" .null)]
        let req := Req.post "http://eserver/api/his/AppointmentsAPI/GetUserDataset?QueryName=APPOINTMENTFINDRESC" body
        (.ok (runCatch (env.http req)), [req])

def get_session_slots (p : JVal) (env : Env) : Except String JVal × List Req :=
  let kvs? : Except String (List (String × JVal)) :=
    match p with
    | .null => .ok []
    | .obj kvs => .ok kvs
    | _ => .error "AttributeError: get"
  match kvs? with
  | .error e => (.error e, [])
  | .ok kvs =>
      if !pTruthy kvs "resource_id" || !pTruthy kvs "session_date" || !pTruthy kvs "session_id" then
        (.ok (getParameterRequirements "get_session_slots"), [])
      else if !validateParameters "get_session_slots" kvs then
        (.ok (getParameterRequirements "get_session_slots"), [])
      else
        let today := env.today
        let resourceId := pyStr (pGetD kvs "resource_id" (.str "2"))
        let sessionDate := pyStr (pGetD kvs "session_date" (.str today))
        let sessionId := pyStr (pGetD kvs "session_id" (.str "363"))
        let req := Req.get ("http://eserver/api/his/AppointmentsAPI/GetSessionSlots?Id=" ++ resourceId ++
          "&SessionDate=" ++ sessionDate ++ "T00%3A00%3A00.000Z&SessionId=" ++ sessionId)
        (.ok (runCatch (env.http req)), [req])

def create_walkin (p : JVal) (env : Env) : Except String JVal × List Req :=
  let kvs? : Except String (List (String × JVal)) :=
    match p with
    | .null => .ok []
    | .obj kvs => .ok kvs
    | _ => .error "AttributeError: get"
  match kvs? with
  | .error e => (.error e, [])
  | .ok kvs =>
      if !pTruthy kvs "patient_id" || !pTruthy kvs "resource_id" || !pTruthy kvs "session_date" then
        (.ok (getParameterRequirements "create_walkin"), [])
      else
        let today := env.today
        let kvs := setdefault kvs "resource_id" (.str "2")
        let kvs := setdefault kvs "session_id" (.str "363")
        let kvs := setdefault kvs "session_date" (.str today)
        let kvs := setdefault kvs "from_time" (.str "07%3A10%3A00")
        let kvs := setdefault kvs "patient_id" (.str "3598")
        if !validateParameters "create_walkin" kvs then
          (.ok (getParameterRequirements "create_walkin"), [])
        else
          let resourceId := pyStr (pGetD kvs "resource_id" (.str "2"))
          let sessionId := pyStr (pGetD kvs "session_id" (.str "363"))
          let sessionDate := pyStr (pGetD kvs "session_date" (.str today))
          let fromTime := pyStr (pGetD kvs "from_time" (.str "07%3A10%3A00"))
          let patientId := pyStr (pGetD kvs "patient_id" (.str "3598"))
          let req := Req.get ("http://eserver/api/his/AppointmentsAPI/CreateWalkin?ResourceId=" ++ resourceId ++
            "&SessionId=" ++ sessionId ++ "&SessionDate=" ++ sessionDate ++
            "&FromTime=" ++ fromTime ++ "&PatientId=" ++ patientId)
          (.ok (runCatch (env.http req)), [req])

def get_appointment_number (_p : JVal) (env : Env) : Except String JVal × List Req :=
  let req := Req.get "http://eserver/api/his/AppointmentsAPI/GetAppointmentNumber"
  (.ok (runCatch (env.http req)), [req])

def create_visit (p : JVal) (env : Env) : Except String JVal × List Req :=
  match p with
  | .null => (.ok (getParameterRequirements "create_visit"), [])
  | .obj kvs =>
      if !pTruthy kvs "appointment_id" then
        (.ok (getParameterRequirements "create_visit"), [])
      else if !validateParameters "create_visit" kvs then
        (.ok (getParameterRequirements "create_visit"), [])
      else
        let appointmentId := pyStr (pGetD kvs "appointment_id" (.str "1820"))
        let req := Req.get ("http://eserver/api/his/AppointmentsAPI/CreateVisit?AppointmentId=" ++ appointmentId)
        (.ok (runCatch (env.http req)), [req])
  | _ => (.error "AttributeError: get", [])

def get_patient_journey (p : JVal) (env : Env) : Except String JVal × List Req :=
  match p with
  | .null => (.ok (getParameterRequirements "get_patient_journey"), [])
  | .obj kvs =>
      if !pTruthy kvs "visit_id" then
        (.ok (getParameterRequirements "get_patient_journey"), [])
      else if !validateParameters "get_patient_journey" kvs then
        (.ok (getParameterRequirements "get_patient_journey"), [])
      else
        let visitId := pyStr (pGetD kvs "visit_id" (.str "3502"))
        let req := Req.get ("http://eserver/api/clinicaldocs/VisitDocs/GetPatientJourney?VisitId=" ++ visitId)
        (.ok (runCatch (env.http req)), [req])
  | _ => (.error "AttributeError: get", [])

def get_appointment_followup (p : JVal) (env : Env) : Except String JVal × List Req :=
  let kvs? : Except String (List (String × JVal)) :=
    match p with
    | .null => .ok []
    | .obj kvs => .ok kvs
    | _ => .error "AttributeError: setdefault"
  match kvs? with
  | .error e => (.error e, [])
  | .ok kvs =>
      let today := env.today
      let kvs := setdefault kvs "patient_id" (.str "3598")
      let kvs := setdefault kvs "date_from" (.str today)
      let kvs := setdefault kvs "date_to" (.str today)
      if !validateParameters "get_appointment_followup" kvs then
        (.ok (getParameterRequirements "get_appointment_followup"), [])
      else
        let patientId := pyStr (pGetD kvs "patient_id" (.str "3598"))
        let dateFrom := pyStr (pGetD kvs "date_from" .null)
        let dateTo := pyStr (pGetD kvs "date_to" .null)
        let req := Req.get ("http://eserver/api/clinicaldocs/VisitDocs/GetRecordset?VisitId=" ++ patientId ++
          "&QueryName=GET_FOLLOWUP&ParamDateFrom=" ++ dateFrom ++ "&ParamDateTo=" ++ dateTo)
        (.ok (runCatch (env.http req)), [req])

/-- The registry keys (`self.tools` in `ReActAgent.__init__`). -/
def toolNames : List String :=
  ["get_doctor_specialties", "activate_sso", "search_by_id_number",
   "get_today_appointments", "get_ongoing_visits", "init_appointments",
   "get_user_dataset", "get_session_slots", "create_walkin",
   "get_appointment_number", "create_visit", "get_patient_journey",
   "get_appointment_followup"]

/-- `self.tools[name](parameters)`: dispatch to the registered operation.
`_act` only calls this after a successful membership check, so the default
branch is unreachable from the agent. -/
def toolRunExc (name : String) (p : JVal) (env : Env) : Except String JVal × List Req :=
  if name = "get_doctor_specialties" then get_doctor_specialties p env
  else if name = "activate_sso" then activate_sso p env
  else if name = "search_by_id_number" then search_by_id_number p env
  else if name = "get_today_appointments" then get_today_appointments p env
  else if name = "get_ongoing_visits" then get_ongoing_visits p env
  else if name = "init_appointments" then init_appointments p env
  else if name = "get_user_dataset" then get_user_dataset p env
  else if name = "get_session_slots" then get_session_slots p env
  else if name = "create_walkin" then create_walkin p env
  else if name = "get_appointment_number" then get_appointment_number p env
  else if name = "create_visit" then create_visit p env
  else if name = "get_patient_journey" then get_patient_journey p env
  else if name = "get_appointment_followup" then get_appointment_followup p env
  else (.error ("KeyError: " ++ name), [])

/-! ## Intent-classifier heuristics (react_agent.py) -/

def greetingStarts : List String :=
  ["hi", "hello", "hey", "greetings", "good morning", "good afternoon", "good evening"]

/-- `_is_greeting`: the four anchored greeting patterns.  In the first one,
`[\s\W]*$` accepts any run of non-word characters (whitespace is non-word),
so the pattern means: a greeting word followed only by non-word characters. -/
def isGreeting (q : String) : Bool :=
  let s := lowerL q
  (greetingStarts.any fun g =>
    g.data.isPrefixOf s && (s.drop g.length).all (fun c => !isWordChar c)) ||
  s = "how are you".data || s = "how are you?".data ||
  s = "whats up".data || s = "what\x27s up".data ||
  s = "whats up?".data || s = "what\x27s up?".data ||
  "nice to meet you.".data.isSuffixOf s || "pleased to meet you.".data.isSuffixOf s

/-- `_get_greeting_response`. -/
def getGreetingResponse (q : String) : JVal :=
  if containsSub "how are you".data (lowerL q) then
    .str "I\x27m doing well, thank you for asking! I\x27m here to help with questions about doctor specialties and appointments at our hospital. How can I assist you today?"
  else
    .str "Hello! I\x27m the SmartClinic assistant. I can help you with information about doctor specialties and appointments at our hospital. How can I assist you today?"

def specialtyKeywords : List String :=
  ["doctor", "specialist", "specialty", "specialties", "speciality",
   "specialities", "department", "medical", "physician", "practitioner",
   "cardio", "heart", "dental", "teeth", "dentist", "neuro", "brain",
   "ortho", "bone", "pediatric", "children", "emergency", "surgery"]

/-- The words whose presence makes `_is_specialty_query` bail out
immediately (its appointment-vocabulary exclusion). -/
def specialtyExclusionWords : List String :=
  ["book", "schedule", "appointment", "slot", "visit", "time"]

/-- `_is_specialty_query`. -/
def isSpecialtyQuery (q : String) : Bool :=
  let s := lowerL q
  if containsAny specialtyExclusionWords s then false
  else if seq2 ["yes", "yeah", "sure", "ok", "okay", "full", "complete", "all"]
           ["list", "specialties", "speciality", "specialists"] s then true
  else if seq3 ["show", "see", "give"] ["all", "full", "complete", "more"]
           ["list", "specialties"] s then true
  else if seq2 ["list", "show"] ["all", "everything", "every", "more"] s then true
  else if seq3 ["what"] ["all", "else", "other"] ["available", "have"] s then true
  else
    let keywordMatch := containsAny specialtyKeywords s
    if keywordMatch then
      if seq2 ["do", "does", "are", "can", "have"] ["doctor", "specialist", "physician"] s then true
      else if seq2 ["what", "which"] ["specialist", "specialty", "department"] s then true
      else if seq2 ["looking for"] ["doctor", "specialist"] s then true
      else if seq2 ["find", "need"] ["doctor", "specialist"] s then true
      else if seq3 ["tell", "inform"] ["about", "your"] ["specialist", "specialty", "department"] s then true
      else if seq3 ["what", "which", "any", "is"] ["doctor", "specialist", "department"]
               ["available", "have", "for", "treat"] s then true
      else if !containsAny ["what", "which", "where", "how", "when", "do", "does",
                            "are", "can", "have", "tell", "inform"] s then false
      else keywordMatch
    else keywordMatch

def strongAppointmentIndicators : List String :=
  ["book appointment", "schedule appointment", "make appointment",
   "get appointment", "create appointment", "new appointment",
   "appointment booking", "appointment schedule", "appointment availability",
   "book a visit", "schedule a visit", "book a slot"]

/-- `_is_appointment_query`. -/
def isAppointmentQuery (q : String) : Bool :=
  let s := lowerL q
  if containsAny strongAppointmentIndicators s then true
  else if seq2 ["book", "schedule", "make", "get", "create"]
           ["appointment", "visit", "consultation"] s then true
  else if seq2 ["available", "free", "open"] ["slot", "time", "appointment"] s then true
  else if seq3 ["when", "how"] ["see", "meet", "visit"] ["doctor", "specialist"] s then true
  else if seq2 ["my", "check"] ["appointment", "booking", "reservation"] s then true
  else if optSep "walk" "in" s then true
  else if optSep "follow" "up" s then true
  else if seq2 ["today", "tomorrow"] ["appointment", "visit"] s then true
  else if seq2 ["appointment", "booking"] ["system", "process", "available"] s then true
  else
    containsAny ["appointment", "booking", "schedule", "slot"] s &&
      containsAny ["doctor", "hospital", "clinic", "medical", "visit"] s

/-- `_select_appointment_tool`: the keyword buckets, including the hardcoded
sample parameters the source fills in. -/
def selectAppointmentTool (q : String) : JVal :=
  let s := lowerL q
  if containsAny ["today", "current", "ongoing", "active"] s && containsSub "appointment".data s then
    .obj [("action_type", .str "get_today_appointments"), ("parameters", .obj [])]
  else if containsAny ["today", "current", "ongoing", "active"] s && containsSub "visit".data s then
    .obj [("action_type", .str "get_ongoing_visits"), ("parameters", .obj [])]
  else if containsAny ["book", "schedule", "make", "create", "get", "new"] s then
    if containsAny ["walk in", "walk-in", "walkin"] s then
      .obj [("action_type", .str "create_walkin"),
            ("parameters", .obj
              [("resource_id", .str "2"), ("session_id", .str "363"),
               ("session_date", .str "2025-06-25"), ("from_time", .str "07%3A10%3A00"),
               ("patient_id", .str "3598")])]
    else
      .obj [("action_type", .str "get_session_slots"),
            ("parameters", .obj
              [("resource_id", .str "2"), ("session_date", .str "2025-06-25"),
               ("session_id", .str "363")])]
  else if containsAny ["follow up", "follow-up", "followup"] s then
    .obj [("action_type", .str "get_appointment_followup"),
          ("parameters", .obj
            [("patient_id", .str "3598"), ("date_from", .str "2025-06-25"),
             ("date_to", .str "2025-06-25")])]
  else if containsAny ["journey", "status", "progress"] s then
    .obj [("action_type", .str "get_patient_journey"),
          ("parameters", .obj [("visit_id", .str "3502")])]
  else if containsAny ["available", "slot", "time"] s then
    .obj [("action_type", .str "get_session_slots"),
          ("parameters", .obj
            [("resource_id", .str "2"), ("session_date", .str "2025-06-25"),
             ("session_id", .str "363")])]
  else
    .obj [("action_type", .str "init_appointments"), ("parameters", .obj [])]

/-! ## Language-model gateway (react_agent.py) -/

/-- `_call_llm`: one outbound call; a transport failure is re-raised as
`Exception("LLM call failed: ...")`. -/
def callLLM (env : Env) (msgs : List Msg) : Except String JVal :=
  match env.llm msgs with
  | .ok j => .ok j
  | .error e => .error ("LLM call failed: " ++ e)

/-- The scope-limiting system prompt of `_construct_reasoning_prompt`.
The text is the sources (indentation normalized); it only feeds the
language-model oracle, so no claim depends on its exact value. -/
def reasoningSystemMessage : String :=
  "You are an intelligent hospital assistant that helps users with their queries about doctor specialties and appointments only.\n\n" ++
  "Your task is to analyze the user\x27s query and decide whether to use a tool or answer directly.\n\n" ++
  "Currently, you have access to the following tools:\n\n" ++
  "SPECIALTY TOOLS:\n1. get_doctor_specialties: Retrieves information about doctor specialties\n\n" ++
  "APPOINTMENT TOOLS:\n2. activate_sso: Activates Single Sign-On for a user\n" ++
  "3. search_by_id_number: Searches for a patient by ID number\n" ++
  "4. get_today_appointments: Retrieves today\x27s appointments\n" ++
  "5. get_ongoing_visits: Retrieves ongoing patient visits\n" ++
  "6. init_appointments: Initializes the appointments system\n" ++
  "7. get_user_dataset: Retrieves user dataset for appointments\n" ++
  "8. get_session_slots: Retrieves appointment session slots\n" ++
  "9. create_walkin: Creates a walk-in appointment\n" ++
  "10. get_appointment_number: Retrieves appointment numbers\n" ++
  "11. create_visit: Creates a patient visit\n" ++
  "12. get_patient_journey: Retrieves patient journey information\n" ++
  "13. get_appointment_followup: Retrieves follow-up appointment information\n\n" ++
  "IMPORTANT: You should ONLY answer questions about doctor specialties and appointments in the hospital. For ANY other topic:\n" ++
  "1. You must set \"out_of_scope\" to true\n" ++
  "2. You should NOT provide an answer, as you don\x27t have verified information on other topics\n" ++
  "3. Your response should direct the user back to asking about doctor specialties or appointments\n\n" ++
  "EXAMPLES OF SPECIALTY QUERIES:\n- \"What specialties do you have?\"\n- \"Do you have cardiologists?\"\n- \"Tell me about your orthopedic department\"\n\n" ++
  "EXAMPLES OF APPOINTMENT QUERIES:\n- \"I want to book an appointment\"\n- \"Show me today\x27s appointments\"\n- \"What appointment slots are available?\"\n- \"How do I schedule a follow-up?\"\n\n" ++
  "EXAMPLES OF OUT-OF-SCOPE QUERIES:\n- \"What medications should I take for headaches?\"\n- \"How much does surgery cost?\"\n- \"What\x27s the weather today?\"\n\n" ++
  "For each query, you should:\n1. Think about what the user is asking for\n" ++
  "2. Decide if it\x27s about doctor specialties or appointments (if not, mark it out of scope)\n" ++
  "3. Format your response as JSON with the following structure:\n\n" ++
  "If you need to use a tool:\n\x7b\n    \"reasoning\": \"your step-by-step reasoning\",\n    \"use_tool\": true,\n    \"action\": \x7b\n        \"action_type\": \"[one of the tool names]\",\n        \"parameters\": \x7b\"param1\": \"value1\", \"param2\": \"value2\"\x7d\n    \x7d\n\x7d\n\n" ++
  "If you can answer directly (ONLY for basic specialty/appointment information or greetings):\n\x7b\n    \"reasoning\": \"your step-by-step reasoning\",\n    \"use_tool\": false,\n    \"direct_answer\": \"your answer to the user\x27s query about doctor specialties or appointments\"\n\x7d\n\n" ++
  "If the query is NOT about doctor specialties or appointments:\n\x7b\n    \"reasoning\": \"your step-by-step reasoning\",\n    \"use_tool\": false,\n    \"out_of_scope\": true,\n    \"direct_answer\": null\n\x7d"

/-- `history[-4:]`. -/
def lastN {α : Type} (n : Nat) (l : List α) : List α := l.drop (l.length - n)

/-- `_construct_reasoning_prompt`: system prompt, the last four history
turns, then the current query. -/
def constructReasoningPrompt (hist : List Msg) (q : String) : List Msg :=
  ⟨"system", .str reasoningSystemMessage⟩ :: lastN 4 hist ++
    [⟨"user", .str ("User query: " ++ q ++ "\n\nRespond with the JSON format described in the instructions.")⟩]

def finalAnswerSystemMessage : String :=
  "You are an intelligent hospital assistant that helps users with their queries about doctor specialties and appointments.\n\n" ++
  "Based on the user\x27s query, the reasoning, and the observation from using a tool,\nformulate a helpful, concise, and informative response.\n\n" ++
  "IMPORTANT RULES:\n1. Only respond with information that is directly supported by the observation\n" ++
  "2. If the observation doesn\x27t provide enough information to answer, say so clearly\n" ++
  "3. Never make up or hallucinate information about specialists, departments, or appointments\n" ++
  "4. If relevant information is found, present it in a clear, helpful way\n" ++
  "5. If no relevant information is found, politely inform the user\n\n" ++
  "Provide only the final answer without mentioning the reasoning process or the fact that you used a tool."

/-- `_construct_final_answer_prompt`.  The `reasoning.get(...)` chain can
raise on a malformed reasoning value, which (being outside any local `try`)
would propagate to the orchestrator boundary, hence the `Except`. -/
def constructFinalAnswerPrompt (q : String) (r : JVal) (obs : JVal) :
    Except String (List Msg) := do
  let reasoningV ← pyGet r "reasoning" (.str "No reasoning provided")
  let actionV ← pyGet r "action" (.obj [])
  let toolUsed ← pyGet actionV "action_type" (.str "No tool used")
  let toolParams ← pyGet actionV "parameters" (.obj [])
  let obsV ← pyGet obs "observation" (.str "No observation available")
  let content :=
    "User query: " ++ q ++ "\n\nReasoning: " ++ pyStr reasoningV ++
    "\n\nTool used: " ++ pyStr toolUsed ++
    "\nTool parameters: " ++ jsonDumps toolParams ++
    "\n\nObservation: " ++ jsonDumps obsV ++
    "\n\nBased on this information, provide a helpful answer to the user\x27s original query.\n" ++
    "Remember to ONLY use information from the observation and do not make up or hallucinate any details."
  .ok [⟨"system", .str finalAnswerSystemMessage⟩, ⟨"user", .str content⟩]

/-! ## Model-response parsing (react_agent.py) -/

/-- `j[0]`.  Indexing a Python string would actually return its first
character, but the `.get` that immediately follows then raises just the
same, so inside the surrounding `try` both collapse to the same fallback. -/
def pyIndex0 (j : JVal) : Except String JVal :=
  match j with
  | .arr [] => .error "IndexError"
  | .arr (x :: _) => .ok x
  | _ => .error "TypeError: index"

/-- The span `re.search(r'\{.*\}', content, re.DOTALL)` extracts: from the
first opening brace to the last closing brace after it; if there is no such
pair the content is left unchanged. -/
def greedyBraceSpan (cs : List Char) : List Char :=
  match cs.findIdx? (fun c => c = '\x7b') with
  | none => cs
  | some i =>
      let tail := cs.drop i
      match tail.reverse.findIdx? (fun c => c = '\x7d') with
      | some rback => tail.take (tail.length - rback)
      | none => cs

/-- Insert the placeholder reasoning when the parsed object lacks one
(`if "reasoning" not in parsed_response`). -/
def ensureReasoning (kvs : List (String × JVal)) : List (String × JVal) :=
  if (kvs.lookup "reasoning").isSome then kvs
  else kvs ++ [("reasoning", .str "No explicit reasoning provided by LLM")]

/-- The fallback decision `_parse_reasoning_response` returns from its
`except` clause. -/
def parseFallback : JVal :=
  .obj [("reasoning", .str "Failed to parse LLM response"),
        ("use_tool", .bool false),
        ("out_of_scope", .bool true),
        ("direct_answer", .str "I\x27m having trouble processing your question. Could you please ask specifically about doctor specialties or appointments available at our hospital?")]

/-- `_parse_reasoning_response`. -/
def parseReasoningResponse (llmResponse : JVal) : JVal :=
  let body : Except String JVal := do
    let choices ← pyGet llmResponse "choices" (.arr [.obj []])
    let first ← pyIndex0 choices
    let message ← pyGet first "message" (.obj [])
    let contentV ← pyGet message "content" (.str (String.mk ['\x7b', '\x7d']))
    let content ← asStr contentV
    match jsonLoads (String.mk (greedyBraceSpan content.data)) with
    | none => .error "json.decoder.JSONDecodeError"
    | some parsed =>
        match parsed with
        | .obj kvs => .ok (.obj (ensureReasoning kvs))
        | .str s =>
            -- `"reasoning" not in parsed` is a substring test on a str
            -- result; the item assignment on the `not in` branch raises
            if containsSub "reasoning".data s.data then .ok (.str s)
            else .error "TypeError: item assignment"
        | .arr xs =>
            if xs.any (fun x => match x with | .str s => s == "reasoning" | _ => false) then
              .ok (.arr xs)
            else .error "TypeError: item assignment"
        | _ => .error "TypeError: in"
  match body with
  | .ok v => v
  | .error _ => parseFallback

/-- `_extract_final_answer`: total — its own `except` returns an apology. -/
def extractFinalAnswer (resp : JVal) : JVal :=
  let body : Except String JVal := do
    let choices ← pyGet resp "choices" (.arr [.obj []])
    let first ← pyIndex0 choices
    let message ← pyGet first "message" (.obj [])
    pyGet message "content" (.str "")
  match body with
  | .ok v => v
  | .error _ => .str "I\x27m sorry, I encountered an error while processing your request."

/-! ## Reason / Act / Observe / Synthesize (react_agent.py) -/

/-- `_reason`: the reasoning output (a Python dict) together with the number
of language-model calls attempted. -/
def reason (hist : List Msg) (q : String) (env : Env) : JVal × Nat :=
  if isGreeting q then
    (.obj [("reasoning", .str "The user is providing a greeting or asking a simple question. I can answer directly without using a tool."),
           ("use_tool", .bool false),
           ("direct_answer", getGreetingResponse q)], 0)
  else if isAppointmentQuery q then
    let toolAction := selectAppointmentTool q
    let toolName := match toolAction with
                    | .obj kvs => pGetD kvs "action_type" .null
                    | _ => .null
    (.obj [("reasoning", .str ("The user is asking about appointments. I should use the " ++
             pyStr toolName ++ " tool.")),
           ("use_tool", .bool true),
           ("action", toolAction)], 0)
  else if isSpecialtyQuery q then
    (.obj [("reasoning", .str "The user is asking about doctor specialties. I should use the get_doctor_specialties tool to retrieve accurate information from our API."),
           ("use_tool", .bool true),
           ("action", .obj [("action_type", .str "get_doctor_specialties"),
                            ("parameters", .obj [("query", .str q)])])], 0)
  else
    match callLLM env (constructReasoningPrompt hist q) with
    | .ok resp => (parseReasoningResponse resp, 1)
    | .error _ =>
        (.obj [("reasoning", .str "Failed to process with LLM. Providing a general response."),
               ("use_tool", .bool false),
               ("direct_answer", .str "I\x27m here to help with questions about doctor specialties and appointments at our hospital. How can I assist you today?")], 1)

/-- The three shapes `_act` returns: `{"success": True, "result": ...}`,
the needs-parameters dict (success `False`, `needs_parameters` `True`,
`parameter_prompt`, `tool_name`, `parameter_requirements`), and the failure
dict (success `False`, `error`). -/
inductive ActResult where
  | success (result : JVal)
  | needsParams (prompt : JVal) (toolName : String) (requirements : JVal)
  | failure (error : String)
  deriving Repr

/-- `_act`.  The `Except.error` case is an exception the dispatcher itself
does not catch: the `action["action_type"]` subscript and hashing of an
unhashable key both sit before its `try`. -/
def act (action : JVal) (env : Env) : Except String (ActResult × List Req) := do
  let actionType ← pySub action "action_type"
  match actionType with
  | .arr _ => .error "TypeError: unhashable"
  | .obj _ => .error "TypeError: unhashable"
  | .str name =>
      if !toolNames.contains name then
        .ok (.failure ("Unknown action type: " ++ name), [])
      else do
        let params ← pyGet action "parameters" (.obj [])
        match toolRunExc name params env with
        | (.error e, reqs) => .ok (.failure e, reqs)
        | (.ok result, reqs) =>
            match result with
            | .obj kvs =>
                if truthy (pGetD kvs "needs_parameters" (.bool false)) then
                  .ok (.needsParams (pGetD kvs "user_message" (.str "Additional information required"))
                        name result, reqs)
                else .ok (.success result, reqs)
            | _ => .ok (.success result, reqs)
  | other =>
      .ok (.failure ("Unknown action type: " ++ pyStr other), [])

/-- `_observe`.  A needs-parameters outcome is never observed: `chat`
returns before reaching this step. -/
def observe (ar : ActResult) : JVal :=
  match ar with
  | .success result => .obj [("observation", result)]
  | .failure e => .obj [("observation", .str ("Error: " ++ e))]
  | .needsParams _ _ _ => .obj [("observation", .str "Error: ")]

def replaceUnderscores (s : String) : String :=
  (s.data.map (fun c => if c = '_' then ' ' else c)).asString

/-- List comprehension `[s.get("DESCRIPTION", "Unknown") for s in specialties[:5]]`. -/
def mapDescriptions : List JVal → Except String (List JVal)
  | [] => .ok []
  | e :: es => do
      let d ← pyGet e "DESCRIPTION" (.str "Unknown")
      let rest ← mapDescriptions es
      .ok (d :: rest)

/-- Python `value == "literal"`: true exactly for the equal string. -/
def strEqJ (j : JVal) (s : String) : Bool :=
  match j with
  | .str t => t == s
  | _ => false

/-- The per-tool template chain of the synthesis fallback (the `elif`s on
`tool_type`, each a substring test). -/
def fallbackChain (toolTypeV : JVal) : Except String JVal := do
  let tt ← asStr toolTypeV
  if containsSub "create_walkin".data tt.data then
    .ok (.str "I\x27ve scheduled a walk-in appointment for you. Your appointment has been confirmed.")
  else if containsSub "get_today_appointments".data tt.data then
    .ok (.str "I\x27ve retrieved today\x27s appointments. You can view the details in the system.")
  else if containsSub "get_ongoing_visits".data tt.data then
    .ok (.str "I\x27ve checked the ongoing visits in the hospital. The information has been retrieved.")
  else if containsSub "get_session_slots".data tt.data then
    .ok (.str "I\x27ve found available appointment slots. You can select one for your appointment.")
  else if containsSub "get_appointment_followup".data tt.data then
    .ok (.str "I\x27ve checked your follow-up appointments. The information is now available.")
  else if containsSub "get_patient_journey".data tt.data then
    .ok (.str "I\x27ve retrieved your patient journey information. You can see your progress.")
  else if containsSub "create_visit".data tt.data then
    .ok (.str "I\x27ve created a visit record for your appointment. You\x27re all set.")
  else if containsSub "search_by_id_number".data tt.data then
    .ok (.str "I\x27ve found your patient record using your ID number. Your information has been retrieved.")
  else if containsSub "activate_sso".data tt.data then
    .ok (.str "I\x27ve activated your SSO account. You can now log in with your credentials.")
  else
    .ok (.str ("I processed your request about " ++ replaceUnderscores tt ++ ". The operation was successful."))

/-- Lines 501-553 of `chat`: build the grounded prompt, try the
Final-Synthesis model call, and on failure fall back to the deterministic
templates (the specialty enumeration or the per-tool chain). -/
def finalSynthesis (q : String) (r : JVal) (ar : ActResult) (env : Env) :
    Except String JVal := do
  let obs := observe ar
  let prompt ← constructFinalAnswerPrompt q r obs
  match callLLM env prompt with
  | .ok resp => .ok (extractFinalAnswer resp)
  | .error _ =>
      match ar with
      | .success result => do
          let actionV ← pySub r "action"
          let toolTypeV ← pySub actionV "action_type"
          if strEqJ toolTypeV "get_doctor_specialties" then do
            let hasSpecs ← pyIn "specialties" result
            if hasSpecs then do
              let specialties ← pySub result "specialties"
              if truthy specialties then do
                let firstFive ← pySliceTake 5 specialties
                let names ← mapDescriptions firstFive
                let joined ← joinStrs ", " names
                let n ← pyLen specialties
                if n > 5 then
                  .ok (.str ("I found these specialties: " ++ joined ++
                    " and " ++ toString (n - 5) ++ " more."))
                else
                  .ok (.str ("I found these specialties: " ++ joined))
              else
                .ok (.str "I couldn\x27t find any matching specialties for your query.")
            else fallbackChain toolTypeV
          else fallbackChain toolTypeV
      | .failure _ =>
          .ok (.str "I\x27m sorry, I encountered an error while processing your request.")
      | .needsParams _ _ _ =>
          .ok (.str "I\x27m sorry, I encountered an error while processing your request.")

/-! ## The orchestrator (`chat`, react_agent.py lines 463-583) -/

def outOfScopeMessage : JVal :=
  .str "I\x27m currently focused on providing information about doctor specialties and appointments at our hospital. I don\x27t have information about other topics yet. How can I help you with our medical specialists or scheduling appointments?"

def genericFallbackMessage : JVal :=
  .str "I\x27m here to help with questions about doctor specialties and appointments at our hospital. How can I assist you today?"

def apologyMessage : JVal :=
  .str "I\x27m sorry, I encountered an unexpected error. Please try asking about our doctor specialties or appointments again."

/-- The body of `chat` after the reasoning step, given the reasoning output
`r` and the number `n` of model calls made so far.  Each exit returns the
final answer, the new history (the source appends the assistant turn at
lines 495 and 574), the model-call count and the issued requests; an
`Except.error` is an exception reaching the orchestrator boundary. -/
def chatDispatch (h1 : List Msg) (q : String) (r : JVal) (n : Nat) (env : Env) :
    Except String (JVal × List Msg × Nat × List Req) := do
  let useTool ← pyGet r "use_tool" (.bool false)
  if truthy useTool then do
    let actionJ ← pySub r "action"
    let (ar, reqs) ← act actionJ env
    match ar with
    | .needsParams prompt _ _ =>
        .ok (prompt, h1 ++ [mkAsst prompt], n, reqs)
    | _ => do
        let fa ← finalSynthesis q r ar env
        .ok (fa, h1 ++ [mkAsst fa], n + 1, reqs)
  else do
    let hasDa ← pyIn "direct_answer" r
    let daTruthy ←
      if hasDa then do
        let da ← pySub r "direct_answer"
        pure (truthy da)
      else pure false
    if daTruthy then do
      let da ← pySub r "direct_answer"
      .ok (da, h1 ++ [mkAsst da], n, [])
    else do
      let oos ← pyGet r "out_of_scope" (.bool false)
      if truthy oos then
        .ok (outOfScopeMessage, h1 ++ [mkAsst outOfScopeMessage], n, [])
      else
        .ok (genericFallbackMessage, h1 ++ [mkAsst genericFallbackMessage], n, [])

/-- The `try` block of `chat` (the user turn is already in `h1`). -/
def chatBody (h1 : List Msg) (q : String) (env : Env) :
    Except String (JVal × List Msg × Nat × List Req) :=
  let (r, n) := reason h1 q env
  chatDispatch h1 q r n env

/-- `chat`: append the user turn, run the pipeline, and catch any exception
at the boundary, converting it into the fixed apology (still appended to
history).  The call counters are not tracked across the exception path (no
claim measures them there). -/
def chat (hist : List Msg) (q : String) (env : Env) : JVal × List Msg × Nat × List Req :=
  let h1 := hist ++ [mkUser q]
  match chatBody h1 q env with
  | .ok out => out
  | .error _ => (apologyMessage, h1 ++ [mkAsst apologyMessage], 0, [])

/-! ## The HTTP layers response conversion (main.py, `/api/chat` handler).

`main.py` posts the users message to `agent.chat` and, only when the agent
returned a non-string, converts the value to display text — including the
sorted full listing of specialties.  A string answer passes through
unchanged. -/

/-- Code-point lexicographic order — what Python string comparison (and
Lean `String.lt`) uses. -/
def strLtB : List Char → List Char → Bool
  | [], [] => false
  | [], _ :: _ => true
  | _ :: _, [] => false
  | a :: as, b :: bs =>
      if a.toNat < b.toNat then true
      else if b.toNat < a.toNat then false
      else strLtB as bs

def insertStr (x : String) : List String → List String
  | [] => [x]
  | y :: ys => if strLtB x.data y.data then x :: y :: ys else y :: insertStr x ys

/-- `specialty_list.sort()`: stable ascending sort of strings (Python
compares strings by code points, as `String.lt` does). -/
def sortStrs : List String → List String
  | [] => []
  | x :: xs => insertStr x (sortStrs xs)

/-- `[e.get(k, d) for e in l]`. -/
def mapGetEach (k : String) (d : JVal) : List JVal → Except String (List JVal)
  | [] => .ok []
  | e :: es => do
      let v ← pyGet e k d
      let rest ← mapGetEach k d es
      .ok (v :: rest)

def asStrAll : List JVal → Except String (List String)
  | [] => .ok []
  | v :: vs => do
      let s ← asStr v
      let rest ← asStrAll vs
      .ok (s :: rest)

/-- main.py lines 116-171: ensure the response is a string.  An
`Except.error` is an exception reaching the handlers own catch (it would
become a 500 response; out of scope here). -/
def mainFormatResponse (response : JVal) : Except String JVal :=
  match response with
  | .str _ => .ok response
  | .obj kvs =>
      if (kvs.lookup "specialties").isSome then do
        let elems ← pyIter (pGetD kvs "specialties" (.arr []))
        let descs ← mapGetEach "DESCRIPTION" (.str "Unknown specialty") elems
        if descs.isEmpty then
          .ok (.str "I couldn\x27t find any matching specialties.")
        else
          let isFullList := truthy (pGetD kvs "is_full_list" (.bool false))
          if descs.length > 10 && !isFullList then
            .ok (.str ("We have " ++ toString descs.length ++
              " medical specialties available. Here are some examples:\n\n" ++
              String.join ((descs.take 5).map (fun d => "• " ++ pyStr d ++ "\n")) ++
              "\nWould you like to see the full list of specialties or are you looking for a specific one?"))
          else do
            let strs ← asStrAll descs
            let sorted := sortStrs strs
            let header :=
              if isFullList then
                "Here\x27s the complete list of all " ++ toString descs.length ++ " specialties:\n\n"
              else
                "Here are all our available specialties:\n\n"
            .ok (.str (header ++ String.join (sorted.map (fun d => "• " ++ d ++ "\n"))))
      else if (kvs.lookup "appointments").isSome then do
        let appts ← pyIter (pGetD kvs "appointments" (.arr []))
        if appts.isEmpty then
          .ok (.str "No appointments found.")
        else do
          let lines ← apptLines (appts.take 10)
          let tail :=
            if appts.length > 10 then
              "\n...and " ++ toString (appts.length - 10) ++ " more."
            else ""
          .ok (.str ("Found " ++ toString appts.length ++ " appointment(s):\n\n" ++
            String.join lines ++ tail))
      else
        .ok (.str ("Here\x27s what I found: " ++ jsonDumps response))
  | other => .ok (.str (pyStr other))
where
  apptLines : List JVal → Except String (List String)
    | [] => .ok []
    | a :: rest => do
        let nm ← pyGet a "PATIENTNAME" (.str "Unknown patient")
        let dt ← pyGet a "APPTDATE" (.str "Unknown date")
        let tm ← pyGet a "STARTTIME" (.str "Unknown time")
        let more ← apptLines rest
        .ok (("• " ++ pyStr nm ++ ": " ++ pyStr dt ++ " at " ++ pyStr tm ++ "\n") :: more)

/-! ## The specs version of the decision parser (for claim C6) -/

/-- Walk a brace-balanced span: given the current depth (≥ 1, the opening
brace already consumed), return the characters up to and including the brace
that closes depth 1. -/
def balancedFrom : Nat → List Char → Option (List Char)
  | _, [] => none
  | d, c :: rest =>
      if c = '\x7b' then (balancedFrom (d + 1) rest).map (c :: ·)
      else if c = '\x7d' then
        if d = 1 then some [c] else (balancedFrom (d - 1) rest).map (c :: ·)
      else (balancedFrom d rest).map (c :: ·)

/-- The first balanced `{...}` substring of the text, if any. -/
def firstBalancedSpan (cs : List Char) : Option (List Char) :=
  match cs.findIdx? (fun c => c = '\x7b') with
  | none => none
  | some i =>
      match balancedFrom 1 ((cs.drop i).drop 1) with
      | some tail => some ('\x7b' :: tail)
      | none => none

/-- Modelled from the spec (§4.4): `extract_json_decision` "must locate the
first balanced JSON object substring within the models free-form text and
parse it; parse failure or missing required field must produce a well-defined
fallback OutOfScope decision with an explanatory reasoning string — never
raise past this boundary".  The required field is `reasoning` (§3 demands it
always be present).  Written here only to compare against the codes
`_parse_reasoning_response`. -/
def claimedParseDecision (resp : JVal) : JVal :=
  let body : Except String JVal := do
    let choices ← pyGet resp "choices" (.arr [.obj []])
    let first ← pyIndex0 choices
    let message ← pyGet first "message" (.obj [])
    let contentV ← pyGet message "content" (.str (String.mk ['\x7b', '\x7d']))
    let content ← asStr contentV
    match firstBalancedSpan content.data with
    | none => .error "no balanced object"
    | some span =>
        match jsonLoads (String.mk span) with
        | some (.obj kvs) =>
            if (kvs.lookup "reasoning").isSome then .ok (.obj kvs)
            else .error "missing required field"
        | _ => .error "parse failure"
  match body with
  | .ok v => v
  | .error _ => parseFallback

/-- The shape of a standard model response carrying the content `s`. -/
def mkLlmResp (s : String) : JVal :=
  .obj [("choices", .arr [.obj [("message", .obj [("content", .str s)])]])]

/-! ## Observable projections used to state claim properties -/

def JVal.isStr : JVal → Bool
  | .str _ => true
  | _ => false

/-- The truthiness of the field `k` of an object value (`False` elsewhere). -/
def fieldTruthy (j : JVal) (k : String) : Bool :=
  match j with
  | .obj kvs => truthy (pGetD kvs k (.bool false))
  | _ => false

/-- The field `k` of an object value, if any. -/
def fieldOf (j : JVal) (k : String) : Option JVal :=
  match j with
  | .obj kvs => kvs.lookup k
  | _ => none

/-! ## Claim C1 -/

/-- Every successful exit of the post-reasoning dispatch appends exactly one
assistant turn carrying the returned answer. -/
theorem chatDispatch_hist (h1 : List Msg) (q : String) (r : JVal) (n : Nat) (env : Env)
    (a : JVal) (h2 : List Msg) (m : Nat) (reqs : List Req)
    (h : chatDispatch h1 q r n env = .ok (a, h2, m, reqs)) :
    h2 = h1 ++ [mkAsst a] := by
  unfold chatDispatch at h
  simp only [bind, Except.bind, pure, Except.pure] at h
  repeat' split at h
  all_goals (try exact Except.noConfusion h)
  all_goals
    (simp only [Except.ok.injEq, Prod.mk.injEq] at h;
     obtain ⟨ha, hh, -⟩ := h; subst ha; exact hh.symm)

/-- C1 (amended): `chat` is total — for every utterance, starting history
and environment it returns exactly one value and never raises (the
orchestrator boundary catches every pipeline exception, including on the
apology path) — and on every path the conversation history grows by exactly
two entries: the user turn appended at entry and exactly one assistant turn,
whose content equals the returned value, appended before return.  (The
original claims "returns exactly one string" does not survive oracle-shaped
payloads; see the counterexample.) -/
theorem c1_total_and_two_turn_history (hist : List Msg) (q : String) (env : Env) :
    (chat hist q env).2.1 = hist ++ [mkUser q, mkAsst (chat hist q env).1] := by
  unfold chat chatBody
  rcases hR : reason (hist ++ [mkUser q]) q env with ⟨r, n⟩
  simp only [hR]
  cases hB : chatDispatch (hist ++ [mkUser q]) q r n env with
  | ok out =>
      obtain ⟨a, h2, m, reqs⟩ := out
      have hh := chatDispatch_hist _ _ _ _ _ _ _ _ _ hB
      simp [hh]
  | error e => simp

/-- An environment whose hospital endpoint fabricates a needs-parameters
descriptor with a non-string `user_message`, and whose model endpoint is
down. -/
def fabDescriptorEnv : Env :=
  ⟨fun _ => .error "down",
   fun _ => .ok (.obj [("needs_parameters", .bool true), ("user_message", .num 7)]),
   "2026-10-12"⟩

/-- C1 counterexample: on "book appointment" against `fabDescriptorEnv`,
the source returns `result.get("user_message")` verbatim from the
needs-parameters early return — here the integer `7`, not a string — so
"chat returns exactly one string" fails as stated (the history invariant
still holds: the non-string value is what gets appended). -/
theorem c1_counterexample :
    JVal.isStr (chat [] "book appointment" fabDescriptorEnv).1 = false ∧
    (chat [] "book appointment" fabDescriptorEnv).1 = .num 7 ∧
    (chat [] "book appointment" fabDescriptorEnv).2.1 =
      [mkUser "book appointment", mkAsst (.num 7)] :=
  ⟨rfl, rfl, rfl⟩

/-! ## Claim C2 -/

/-- C2: whenever the reasoning output selects a registered tool and the
dispatched tool returns a needs-parameters descriptor (a dict whose
`needs_parameters` is truthy, carrying `user_message`), `chat` terminates the
turn immediately: it returns the descriptors `user_message` literally and
the model-call count stays at the reasoning stages count — no
Final-Synthesis model call is made in that turn. -/
theorem c2_needs_parameters_early_return
    (hist : List Msg) (q : String) (env : Env) (r : JVal) (rkvs : List (String × JVal))
    (n : Nat) (aJ : JVal) (name : String) (pj res m : JVal)
    (reskvs : List (String × JVal)) (reqs : List Req)
    (hr : reason (hist ++ [mkUser q]) q env = (r, n))
    (hobj : r = .obj rkvs)
    (hut : truthy (pGetD rkvs "use_tool" (.bool false)) = true)
    (ha : rkvs.lookup "action" = some aJ)
    (haty : pySub aJ "action_type" = .ok (.str name))
    (hreg : toolNames.contains name = true)
    (hp : pyGet aJ "parameters" (.obj []) = .ok pj)
    (hrun : toolRunExc name pj env = (.ok res, reqs))
    (hres : res = .obj reskvs)
    (hnp : truthy (pGetD reskvs "needs_parameters" (.bool false)) = true)
    (hum : reskvs.lookup "user_message" = some m) :
    chat hist q env = (m, hist ++ [mkUser q, mkAsst m], n, reqs) := by
  subst hobj hres
  have hact : act aJ env = .ok (.needsParams m name (.obj reskvs), reqs) := by
    unfold act
    simp only [bind, Except.bind, haty, hreg, Bool.not_true, Bool.false_eq_true,
      if_neg, hp, hrun, hnp, if_pos]
    simp [pGetD, hum]
  unfold chat chatBody
  simp only [hr]
  unfold chatDispatch
  simp only [bind, Except.bind, pyGet, pySub, ha, hut, if_pos, hact]
  simp only [pGetD] at hut
  simp [hut]

/-- An environment whose model decides on `create_visit` with an empty
parameter mapping ("please assist" matches no heuristic, so the model is
consulted). -/
def c2WitnessEnv : Env :=
  ⟨fun _ => .ok (mkLlmResp "\x7b\"reasoning\": \"r\", \"use_tool\": true, \"action\": \x7b\"action_type\": \"create_visit\", \"parameters\": \x7b\x7d\x7d\x7d"),
   fun _ => .ok (.obj []), "2026-10-12"⟩

/-- C2 witness: one reasoning-stage model call (count 1), then the turn ends
with the literal `create_visit` requirement message, no downstream request
and no synthesis call. -/
theorem c2_witness :
    chat [] "please assist" c2WitnessEnv =
      (.str "I need an appointment ID to create a visit. Please provide the appointment ID.",
       [mkUser "please assist",
        mkAsst (.str "I need an appointment ID to create a visit. Please provide the appointment ID.")],
       1, []) :=
  c2_needs_parameters_early_return [] "please assist" c2WitnessEnv _ _ 1 _ "create_visit" _ _ _ _ []
    rfl rfl rfl rfl rfl rfl rfl rfl rfl rfl rfl

/-! ## Claim C3 -/

/-- A well-behaved environment: the model endpoint is down (so deterministic
fallbacks are visible) and the hospital endpoint returns an ordinary
payload. -/
def plainEnv : Env :=
  ⟨fun _ => .error "down", fun _ => .ok (.obj [("slots", .arr [])]), "2026-10-12"⟩

/-- C3 (code bug): for "book appointment" with no parameters supplied by the
user, the bucket selector fills in the hardcoded sample parameters
(`resource_id=2`, `session_date=2025-06-25`, `session_id=363`), so
`get_session_slots` validates and executes: `chat` performs exactly one
downstream HTTP call and returns the slot template (or model text), not the
literal requirement message the spec demands.  The claims expected
requirement prompt is never produced on this input. -/
theorem c3_book_appointment_executes_http :
    (chat [] "book appointment" plainEnv).2.2.2 =
      [Req.get "http://eserver/api/his/AppointmentsAPI/GetSessionSlots?Id=2&SessionDate=2025-06-25T00%3A00%3A00.000Z&SessionId=363"] ∧
    (chat [] "book appointment" plainEnv).1 =
      .str "I\x27ve found available appointment slots. You can select one for your appointment." ∧
    selectAppointmentTool "book appointment" =
      .obj [("action_type", .str "get_session_slots"),
            ("parameters", .obj
              [("resource_id", .str "2"), ("session_date", .str "2025-06-25"),
               ("session_id", .str "363")])] :=
  ⟨rfl, rfl, rfl⟩

/-! ## Claim C4 -/

/-- C4 (code bug): `get_appointment_followup` on an *empty* parameter
mapping defaults the identity-bearing `patient_id` to the hardcoded "3598"
(`parameters.setdefault("patient_id", "3598")`), then passes validation and
executes the downstream call with that identity — instead of returning its
needs-parameters descriptor.  The issued URL carries `VisitId=3598` although
the caller supplied no `patient_id`. -/
theorem c4_followup_defaults_patient_id :
    get_appointment_followup (.obj []) plainEnv =
      (.ok (.obj [("slots", .arr [])]),
       [Req.get "http://eserver/api/clinicaldocs/VisitDocs/GetRecordset?VisitId=3598&QueryName=GET_FOLLOWUP&ParamDateFrom=2026-10-12&ParamDateTo=2026-10-12"]) ∧
    fieldTruthy (getParameterRequirements "get_appointment_followup") "needs_parameters" = true ∧
    (get_appointment_followup (.obj []) plainEnv).2.length = 1 :=
  ⟨rfl, rfl, rfl⟩

/-! ## Claim C5 -/

/-- C5: intent classification is applied in the fixed order greeting,
appointment, specialty, model fallthrough: a greeting always yields a direct
answer; a non-greeting appointment query always yields the bucket-selected
appointment tool regardless of whether it also matches specialty vocabulary;
the specialty branch fires only when greeting and appointment both fail; and
specialty detection rejects every utterance containing booking / appointment
/ time vocabulary — so "I want to book an appointment with a cardiologist"
classifies as appointment-intent (`get_session_slots` bucket), never
specialty-intent. -/
theorem c5_intent_priority :
    (∀ q : String, containsAny specialtyExclusionWords (lowerL q) = true →
        isSpecialtyQuery q = false) ∧
    (∀ (q : String) (hist : List Msg) (env : Env),
        isGreeting q = true →
        ∃ kvs, (reason hist q env).1 = .obj kvs ∧ (reason hist q env).2 = 0 ∧
          kvs.lookup "use_tool" = some (.bool false) ∧
          kvs.lookup "direct_answer" = some (getGreetingResponse q)) ∧
    (∀ (q : String) (hist : List Msg) (env : Env),
        isGreeting q = false → isAppointmentQuery q = true →
        ∃ kvs, (reason hist q env).1 = .obj kvs ∧ (reason hist q env).2 = 0 ∧
          kvs.lookup "use_tool" = some (.bool true) ∧
          kvs.lookup "action" = some (selectAppointmentTool q)) ∧
    (∀ (q : String) (hist : List Msg) (env : Env),
        isGreeting q = false → isAppointmentQuery q = false → isSpecialtyQuery q = true →
        ∃ kvs, (reason hist q env).1 = .obj kvs ∧ (reason hist q env).2 = 0 ∧
          kvs.lookup "action" =
            some (.obj [("action_type", .str "get_doctor_specialties"),
                        ("parameters", .obj [("query", .str q)])])) ∧
    (isAppointmentQuery "I want to book an appointment with a cardiologist" = true ∧
     isSpecialtyQuery "I want to book an appointment with a cardiologist" = false ∧
     fieldOf (reason [] "I want to book an appointment with a cardiologist" plainEnv).1 "action" =
       some (.obj [("action_type", .str "get_session_slots"),
                   ("parameters", .obj
                     [("resource_id", .str "2"), ("session_date", .str "2025-06-25"),
                      ("session_id", .str "363")])])) := by
  refine ⟨?_, ?_, ?_, ?_, ⟨by rfl, by rfl, by rfl⟩⟩
  · intro q h
    unfold isSpecialtyQuery
    simp only [h]
    rfl
  · intro q hist env h
    unfold reason
    simp only [h, if_pos]
    exact ⟨_, rfl, trivial, rfl, rfl⟩
  · intro q hist env hg ha
    unfold reason
    simp only [hg, ha, Bool.false_eq_true, if_false, if_true]
    exact ⟨_, rfl, trivial, rfl, rfl⟩
  · intro q hist env hg ha hs
    unfold reason
    simp only [hg, ha, hs, Bool.false_eq_true, if_false, if_true]
    exact ⟨_, rfl, trivial, rfl⟩

/-- C5 witness: the ordering theorem applied at concrete utterances for each
branch — a greeting, a bare appointment phrase, and a pure specialty
question. -/
theorem c5_witness :
    isSpecialtyQuery "I want to book an appointment with a cardiologist" = false ∧
    (∃ kvs, (reason [] "hello" plainEnv).1 = .obj kvs ∧ (reason [] "hello" plainEnv).2 = 0 ∧
      kvs.lookup "use_tool" = some (.bool false) ∧
      kvs.lookup "direct_answer" = some (getGreetingResponse "hello")) ∧
    (∃ kvs, (reason [] "book appointment" plainEnv).1 = .obj kvs ∧
      (reason [] "book appointment" plainEnv).2 = 0 ∧
      kvs.lookup "use_tool" = some (.bool true) ∧
      kvs.lookup "action" = some (selectAppointmentTool "book appointment")) ∧
    (∃ kvs, (reason [] "What specialties do you have?" plainEnv).1 = .obj kvs ∧
      (reason [] "What specialties do you have?" plainEnv).2 = 0 ∧
      kvs.lookup "action" = some (.obj [("action_type", .str "get_doctor_specialties"),
        ("parameters", .obj [("query", .str "What specialties do you have?")])])) :=
  ⟨c5_intent_priority.1 _ (by rfl),
   c5_intent_priority.2.1 "hello" [] plainEnv (by rfl),
   c5_intent_priority.2.2.1 "book appointment" [] plainEnv (by rfl) (by rfl),
   c5_intent_priority.2.2.2.1 "What specialties do you have?" [] plainEnv (by rfl) (by rfl) (by rfl)⟩

/-! ## Claim C6 -/

/-- Reduction of `_parse_reasoning_response` on a standard response shape:
the result is governed by `json.loads` applied to the greedy
first-`{`-to-last-`}` span of the content. -/
theorem parse_mkResp (s : String) :
    parseReasoningResponse (mkLlmResp s) =
      (match jsonLoads (String.mk (greedyBraceSpan s.data)) with
       | some (.obj kvs) => .obj (ensureReasoning kvs)
       | some (.str t) =>
           if containsSub "reasoning".data t.data then .str t else parseFallback
       | some (.arr xs) =>
           if xs.any (fun x => match x with | .str u => u == "reasoning" | _ => false) then
             .arr xs
           else parseFallback
       | _ => parseFallback) := by
  unfold parseReasoningResponse
  cases hj : jsonLoads (String.mk (greedyBraceSpan s.data)) with
  | none =>
      simp only [mkLlmResp, pyGet, pyIndex0, asStr, bind, Except.bind, List.lookup,
        beq_self_eq_true, Option.getD_some, hj]
  | some v =>
      simp only [mkLlmResp, pyGet, pyIndex0, asStr, bind, Except.bind, List.lookup,
        beq_self_eq_true, Option.getD_some, hj]
      cases v with
      | str t => cases hc : containsSub "reasoning".data t.data <;> simp [hc]
      | arr xs =>
          cases hc : xs.any (fun x => match x with | .str u => u == "reasoning" | _ => false) <;>
            simp [hc]
      | _ => rfl

/-- C6 (amended): the decision parser extracts the span from the first `{`
to the last `}` of the models text (greedy, not the first balanced
object) and runs `json.loads` on it; on parse failure it returns — never
raises — the fixed fallback decision, which is marked out-of-scope and
carries a non-empty explanatory reasoning (and a non-empty direct answer);
a successfully parsed object is returned as-is, with a placeholder inserted
for a missing `reasoning` field rather than triggering the fallback. -/
theorem c6_greedy_parse_contract :
    (∀ s : String, jsonLoads (String.mk (greedyBraceSpan s.data)) = none →
        parseReasoningResponse (mkLlmResp s) = parseFallback) ∧
    (∀ (s : String) (kvs : List (String × JVal)),
        jsonLoads (String.mk (greedyBraceSpan s.data)) = some (.obj kvs) →
        parseReasoningResponse (mkLlmResp s) = .obj (ensureReasoning kvs)) ∧
    (fieldTruthy parseFallback "out_of_scope" = true ∧
     fieldTruthy parseFallback "reasoning" = true ∧
     fieldTruthy parseFallback "direct_answer" = true) := by
  refine ⟨?_, ?_, by rfl, by rfl, by rfl⟩
  · intro s h; rw [parse_mkResp, h]
  · intro s kvs h; rw [parse_mkResp, h]

/-- Free-form model text whose first balanced object parses but whose
greedy first-`{`-to-last-`}` span does not. -/
def c6ContentGreedy : String :=
  "Sure! \x7b\"reasoning\": \"ok\", \"use_tool\": false\x7d Also: \x7b\"x\": 1\x7d"

/-- A well-formed decision object missing the required `reasoning` field. -/
def c6ContentMissingField : String := "\x7b\"use_tool\": false\x7d"

/-- C6 counterexample: (i) on text holding a valid first balanced JSON
object followed by more prose and a second object, the claims parser
returns the embedded decision while the code collapses to the out-of-scope
fallback (the greedy span is not valid JSON); (ii) on an object missing the
required `reasoning` field, the claim demands the out-of-scope fallback but
the code returns the decision with a placeholder reasoning instead. -/
theorem c6_counterexample :
    parseReasoningResponse (mkLlmResp c6ContentGreedy) = parseFallback ∧
    fieldTruthy (parseReasoningResponse (mkLlmResp c6ContentGreedy)) "out_of_scope" = true ∧
    claimedParseDecision (mkLlmResp c6ContentGreedy) =
      .obj [("reasoning", .str "ok"), ("use_tool", .bool false)] ∧
    fieldTruthy (claimedParseDecision (mkLlmResp c6ContentGreedy)) "out_of_scope" = false ∧
    parseReasoningResponse (mkLlmResp c6ContentMissingField) =
      .obj [("use_tool", .bool false),
            ("reasoning", .str "No explicit reasoning provided by LLM")] ∧
    fieldTruthy (parseReasoningResponse (mkLlmResp c6ContentMissingField)) "out_of_scope" = false ∧
    claimedParseDecision (mkLlmResp c6ContentMissingField) = parseFallback :=
  ⟨rfl, rfl, rfl, rfl, rfl, rfl, rfl⟩

/-- C6 witness: the amended contract applied to concrete content with no
JSON at all (fallback) and to content with one embedded object (parsed,
placeholder reasoning appended). -/
theorem c6_witness :
    jsonLoads (String.mk (greedyBraceSpan "no json here".data)) = none ∧
    parseReasoningResponse (mkLlmResp "no json here") = parseFallback ∧
    jsonLoads (String.mk (greedyBraceSpan "x \x7b\"use_tool\": true\x7d".data)) =
      some (.obj [("use_tool", .bool true)]) ∧
    parseReasoningResponse (mkLlmResp "x \x7b\"use_tool\": true\x7d") =
      .obj (ensureReasoning [("use_tool", .bool true)]) :=
  ⟨rfl, c6_greedy_parse_contract.1 _ rfl, rfl, c6_greedy_parse_contract.2.1 _ _ rfl⟩

/-! ## Claim C7 -/

theorem isPrefixOf_append_self (n t : List Char) : n.isPrefixOf (n ++ t) = true := by
  induction n with
  | nil => cases t <;> rfl
  | cons a as ih => simp [List.isPrefixOf, ih]

theorem containsSub_of_prefix (n hay : List Char) (h : n.isPrefixOf hay = true) :
    containsSub n hay = true := by
  cases hay with
  | nil => simpa [containsSub] using h
  | cons c cs => simp [containsSub, h]

theorem containsSub_append_middle (n p t : List Char) :
    containsSub n (p ++ (n ++ t)) = true := by
  induction p with
  | nil => exact containsSub_of_prefix n (n ++ t) (isPrefixOf_append_self n t)
  | cons c cs ih => simp [containsSub, ih]

theorem strDataAppend (a b : String) : (a ++ b).data = a.data ++ b.data := rfl

/-- C7: when the reasoning output selects `get_doctor_specialties`, the tool
call succeeds with a result carrying a (non-empty, well-formed) specialties
list, and every Final-Synthesis model call fails, `chat` still returns a
non-empty string that contains the first entrys `DESCRIPTION` from the raw
result (the deterministic fallback enumerates up to five names and states
the remaining count). -/
theorem c7_specialty_fallback_contains_description
    (hist : List Msg) (q : String) (env : Env) (eL : String) (r : JVal)
    (rkvs akvs reskvs : List (String × JVal)) (n : Nat)
    (e0 d : JVal) (dS : String) (others vs : List JVal) (jr : String) (reqs : List Req)
    (hllm : ∀ msgs, env.llm msgs = .error eL)
    (hr : reason (hist ++ [mkUser q]) q env = (r, n))
    (hobj : r = .obj rkvs)
    (hut : truthy (pGetD rkvs "use_tool" (.bool false)) = true)
    (ha : rkvs.lookup "action" = some (.obj akvs))
    (haty : akvs.lookup "action_type" = some (.str "get_doctor_specialties"))
    (hrun : toolRunExc "get_doctor_specialties" ((akvs.lookup "parameters").getD (.obj []))
      env = (.ok (.obj reskvs), reqs))
    (hnp : truthy (pGetD reskvs "needs_parameters" (.bool false)) = false)
    (hspec : reskvs.lookup "specialties" = some (.arr (e0 :: others)))
    (hmap : mapDescriptions ((e0 :: others).take 5) = .ok (d :: vs))
    (hd : d = .str dS)
    (hmore : joinStrs.joinMore ", " vs = .ok jr) :
    ∃ (t : String) (rest : List Char),
      (chat hist q env).1 = .str t ∧
      t.data = "I found these specialties: ".data ++ (dS.data ++ rest) ∧
      t ≠ "" ∧ containsSub dS.data t.data = true := by
  subst hobj hd
  have hact : act (.obj akvs) env = .ok (.success (.obj reskvs), reqs) := by
    unfold act
    simp only [bind, Except.bind, pySub, haty]
    rw [if_neg (by decide)]
    simp only [pyGet, hrun, hnp, Bool.false_eq_true, if_false]
  have hsyn : ∃ (t : String) (rest : List Char),
      finalSynthesis q (.obj rkvs) (.success (.obj reskvs)) env = .ok (.str t) ∧
      t.data = "I found these specialties: ".data ++ (dS.data ++ rest) := by
    unfold finalSynthesis
    simp only [bind, Except.bind, constructFinalAnswerPrompt, observe, pyGet, ha,
      Option.getD_some, haty, List.lookup, beq_self_eq_true, callLLM, hllm]
    simp only [pySub, ha, haty, strEqJ, beq_self_eq_true, if_true, pyIn, hspec,
      Option.isSome_some, truthy, List.isEmpty_cons, Bool.not_false, pySliceTake,
      hmap, pyLen]
    simp only [joinStrs, asStr, bind, Except.bind, hmore]
    split
    · refine ⟨_, (jr ++ " and " ++ toString ((e0 :: others).length - 5) ++ " more.").data,
        rfl, ?_⟩
      simp [strDataAppend, List.append_assoc]
    · exact ⟨_, jr.data, rfl, by simp [strDataAppend, List.append_assoc]⟩
  obtain ⟨t, rest, hfs, hdata⟩ := hsyn
  have hne : t.data ≠ [] := by
    rw [hdata]
    intro hn
    exact absurd (List.append_eq_nil.mp hn).1 (by decide)
  refine ⟨t, rest, ?_, hdata, fun h => (h ▸ hne) rfl, ?_⟩
  · unfold chat chatBody
    simp only [hr]
    unfold chatDispatch
    simp only [pGetD] at hut
    simp only [bind, Except.bind, pyGet, hut, if_pos, pySub, ha, hact, hfs]
  · rw [hdata]
    exact containsSub_append_middle dS.data "I found these specialties: ".data rest

/-- Six specialties from the data source; the model endpoint is down. -/
def specialtyPayloadSix : JVal :=
  .obj [("Codes", .obj [("SPECIALITY", .arr
    [.obj [("CODE", .num 1), ("DESCRIPTION", .str "NEUROLOGY")],
     .obj [("CODE", .num 2), ("DESCRIPTION", .str "CARDIOLOGY")],
     .obj [("CODE", .num 3), ("DESCRIPTION", .str "DENTAL")],
     .obj [("CODE", .num 4), ("DESCRIPTION", .str "ORTHOPEDICS")],
     .obj [("CODE", .num 5), ("DESCRIPTION", .str "EMERGENCY")],
     .obj [("CODE", .num 6), ("DESCRIPTION", .str "AUDIOLOGY")]])])]

def specDownEnv : Env :=
  ⟨fun _ => .error "down", fun _ => .ok specialtyPayloadSix, "2026-10-12"⟩

/-- C7 witness: a specialty question against six specialties with the model
down — the fallback answer is a non-empty string containing "NEUROLOGY". -/
theorem c7_witness :
    ∃ (t : String) (rest : List Char),
      (chat [] "What specialties do you have?" specDownEnv).1 = .str t ∧
      t.data = "I found these specialties: ".data ++ ("NEUROLOGY".data ++ rest) ∧
      t ≠ "" ∧ containsSub "NEUROLOGY".data t.data = true :=
  c7_specialty_fallback_contains_description [] "What specialties do you have?" specDownEnv
    "down" _ _ _ _ 0 _ _ "NEUROLOGY" _ _ _ _
    (fun _ => rfl) rfl rfl rfl rfl rfl rfl rfl rfl rfl rfl rfl

/-! ## Claim C8 -/

/-- The raw `get_doctor_specialties` result for the full-list request
against `specDownEnv`: every retrieved entry, with `is_full_list` set. -/
def fullListRawResult : JVal :=
  .obj [("specialties", .arr
    [.obj [("CODE", .num 1), ("DESCRIPTION", .str "NEUROLOGY")],
     .obj [("CODE", .num 2), ("DESCRIPTION", .str "CARDIOLOGY")],
     .obj [("CODE", .num 3), ("DESCRIPTION", .str "DENTAL")],
     .obj [("CODE", .num 4), ("DESCRIPTION", .str "ORTHOPEDICS")],
     .obj [("CODE", .num 5), ("DESCRIPTION", .str "EMERGENCY")],
     .obj [("CODE", .num 6), ("DESCRIPTION", .str "AUDIOLOGY")]]),
    ("is_full_list", .bool true)]

/-- C8 (code bug): for "Show me the full list of specialties" the tool call
does return `is_full_list=True` with every retrieved entry (first
conjunct), but the answer presented to the user does not list all entries
sorted alphabetically: with the synthesis model down, `chat` answers with
the five-name fallback plus a remaining count, and the HTTP layers
formatter passes any string answer through unchanged (third conjunct).  The
sorted full listing exists in main.py but only fires when the agent returns
the raw non-string dict (fourth conjunct) — a path `chat` does not take
here. -/
theorem c8_full_list_not_sorted_in_answer :
    toolRunExc "get_doctor_specialties"
        (.obj [("query", .str "Show me the full list of specialties")]) specDownEnv =
      (.ok fullListRawResult, [Req.get "http://eserver/api/his/AppointmentsAPI/InitAll"]) ∧
    (chat [] "Show me the full list of specialties" specDownEnv).1 =
      .str "I found these specialties: NEUROLOGY, CARDIOLOGY, DENTAL, ORTHOPEDICS, EMERGENCY and 1 more." ∧
    mainFormatResponse (chat [] "Show me the full list of specialties" specDownEnv).1 =
      .ok (.str "I found these specialties: NEUROLOGY, CARDIOLOGY, DENTAL, ORTHOPEDICS, EMERGENCY and 1 more.") ∧
    mainFormatResponse fullListRawResult =
      .ok (.str "Here\x27s the complete list of all 6 specialties:\n\n• AUDIOLOGY\n• CARDIOLOGY\n• DENTAL\n• EMERGENCY\n• NEUROLOGY\n• ORTHOPEDICS\n") :=
  ⟨rfl, rfl, rfl, rfl⟩

/-! ## Claim C9 -/

/-- An environment in which every outbound call (model and hospital alike)
raises with message `e`. -/
def allErrEnv (e t : String) : Env := ⟨fun _ => .error e, fun _ => .error e, t⟩

/-- How `_act` classifies a tool result: a dict with truthy
`needs_parameters` becomes the needs-parameters outcome (carrying its
`user_message`), everything else a success. -/
def classifyResult (name : String) (v : JVal) : ActResult :=
  match v with
  | .obj kvs =>
      if truthy (pGetD kvs "needs_parameters" (.bool false)) then
        .needsParams (pGetD kvs "user_message" (.str "Additional information required")) name v
      else .success v
  | _ => .success v

/-- Every registered tool, on a parameter mapping, returns a value (never an
uncaught exception). -/
theorem toolRunExc_isOk (name : String) (hmem : name ∈ toolNames)
    (kvs : List (String × JVal)) (env : Env) :
    (toolRunExc name (.obj kvs) env).1.isOk = true := by
  fin_cases hmem
  · rfl
  · rfl
  · show (search_by_id_number (.obj kvs) env).1.isOk = true
    unfold search_by_id_number; dsimp only; repeat' split
    all_goals rfl
  · rfl
  · rfl
  · rfl
  · show (get_user_dataset (.obj kvs) env).1.isOk = true
    unfold get_user_dataset; dsimp only; repeat' split
    all_goals rfl
  · show (get_session_slots (.obj kvs) env).1.isOk = true
    unfold get_session_slots; dsimp only; repeat' split
    all_goals rfl
  · show (create_walkin (.obj kvs) env).1.isOk = true
    unfold create_walkin; dsimp only; repeat' split
    all_goals rfl
  · rfl
  · show (create_visit (.obj kvs) env).1.isOk = true
    unfold create_visit; dsimp only; repeat' split
    all_goals rfl
  · show (get_patient_journey (.obj kvs) env).1.isOk = true
    unfold get_patient_journey; dsimp only; repeat' split
    all_goals rfl
  · show (get_appointment_followup (.obj kvs) env).1.isOk = true
    unfold get_appointment_followup; dsimp only; repeat' split
    all_goals rfl

/-- `_act` on a registered tool that returned a value classifies the result
(needs-parameters or success) without ever taking its exception branch. -/
theorem act_registered (name : String) (hmem : toolNames.contains name = true)
    (kvs : List (String × JVal)) (env : Env) (v : JVal) (reqs : List Req)
    (h : toolRunExc name (.obj kvs) env = (.ok v, reqs)) :
    act (.obj [("action_type", .str name), ("parameters", .obj kvs)]) env =
      .ok (classifyResult name v, reqs) := by
  unfold act
  have h1 : pySub (.obj [("action_type", JVal.str name), ("parameters", JVal.obj kvs)])
      "action_type" = .ok (.str name) := rfl
  have h2 : pyGet (.obj [("action_type", JVal.str name), ("parameters", JVal.obj kvs)])
      "parameters" (.obj []) = .ok (.obj kvs) := rfl
  simp only [bind, Except.bind, h1, h2, hmem, Bool.not_true, Bool.false_eq_true, if_false, h]
  cases v with
  | obj okvs =>
      unfold classifyResult
      repeat' split
      all_goals rfl
  | _ => rfl

theorem classifyResult_ne_failure (name : String) (v : JVal) (err : String) :
    classifyResult name v ≠ .failure err := by
  unfold classifyResult
  cases v <;> simp
  split <;> simp

set_option linter.unusedTactic false in
set_option maxHeartbeats 1000000 in
/-- When every downstream call fails with `e`, a registered tool that issued
a request returns exactly `{"error": e}`. -/
theorem toolRunExc_errShape (name : String) (hmem : name ∈ toolNames)
    (kvs : List (String × JVal)) (e t : String) (v : JVal) (reqs : List Req)
    (h : toolRunExc name (.obj kvs) (allErrEnv e t) = (.ok v, reqs))
    (hreqs : reqs ≠ []) : v = errObj e := by
  fin_cases hmem
  · have h' : get_doctor_specialties (.obj kvs) (allErrEnv e t) = (.ok v, reqs) := h
    simp only [allErrEnv, bind, Except.bind, runCatch, get_doctor_specialties] at h'
    repeat' split at h'
    all_goals simp_all
  · have h' : activate_sso (.obj kvs) (allErrEnv e t) = (.ok v, reqs) := h
    simp only [allErrEnv, bind, Except.bind, runCatch, activate_sso] at h'
    repeat' split at h'
    all_goals simp_all
  · have h' : search_by_id_number (.obj kvs) (allErrEnv e t) = (.ok v, reqs) := h
    simp only [allErrEnv, bind, Except.bind, runCatch, search_by_id_number] at h'
    repeat' split at h'
    all_goals simp_all
  · have h' : get_today_appointments (.obj kvs) (allErrEnv e t) = (.ok v, reqs) := h
    simp only [allErrEnv, bind, Except.bind, runCatch, get_today_appointments] at h'
    repeat' split at h'
    all_goals simp_all
  · have h' : get_ongoing_visits (.obj kvs) (allErrEnv e t) = (.ok v, reqs) := h
    simp only [allErrEnv, bind, Except.bind, runCatch, get_ongoing_visits] at h'
    repeat' split at h'
    all_goals simp_all
  · have h' : init_appointments (.obj kvs) (allErrEnv e t) = (.ok v, reqs) := h
    simp only [allErrEnv, bind, Except.bind, runCatch, init_appointments] at h'
    repeat' split at h'
    all_goals simp_all
  · have h' : get_user_dataset (.obj kvs) (allErrEnv e t) = (.ok v, reqs) := h
    simp only [allErrEnv, bind, Except.bind, runCatch, get_user_dataset] at h'
    repeat' split at h'
    all_goals simp_all
  · have h' : get_session_slots (.obj kvs) (allErrEnv e t) = (.ok v, reqs) := h
    simp only [allErrEnv, bind, Except.bind, runCatch, get_session_slots] at h'
    repeat' split at h'
    all_goals simp_all
  · have h' : create_walkin (.obj kvs) (allErrEnv e t) = (.ok v, reqs) := h
    simp only [allErrEnv, bind, Except.bind, runCatch, create_walkin] at h'
    repeat' split at h'
    all_goals simp_all
  · have h' : get_appointment_number (.obj kvs) (allErrEnv e t) = (.ok v, reqs) := h
    simp only [allErrEnv, bind, Except.bind, runCatch, get_appointment_number] at h'
    repeat' split at h'
    all_goals simp_all
  · have h' : create_visit (.obj kvs) (allErrEnv e t) = (.ok v, reqs) := h
    simp only [allErrEnv, bind, Except.bind, runCatch, create_visit] at h'
    repeat' split at h'
    all_goals simp_all
  · have h' : get_patient_journey (.obj kvs) (allErrEnv e t) = (.ok v, reqs) := h
    simp only [allErrEnv, bind, Except.bind, runCatch, get_patient_journey] at h'
    repeat' split at h'
    all_goals simp_all
  · have h' : get_appointment_followup (.obj kvs) (allErrEnv e t) = (.ok v, reqs) := h
    simp only [allErrEnv, bind, Except.bind, runCatch, get_appointment_followup] at h'
    repeat' split at h'
    all_goals simp_all

/-- C9 (amended): every registered tool operation is total — for every
parameter mapping it returns a value and never raises, converting any
transport/HTTP exception into `{"error": str(e)}`; consequently the
dispatchers exception-to-Failure branch is unreachable for registered
tools, and a downstream API error reaches the orchestrator as a
success-classified result whose payload carries an `"error"` key.  (The
original "returns a dict" is narrowed to "returns a value": a tool returns
the downstream JSON payload verbatim, which need not be a dict — see the
counterexample.) -/
theorem c9_registered_tools_never_raise :
    (∀ name ∈ toolNames, ∀ (kvs : List (String × JVal)) (env : Env),
        (toolRunExc name (.obj kvs) env).1.isOk = true) ∧
    (∀ name ∈ toolNames, ∀ (kvs : List (String × JVal)) (env : Env),
        ∃ ar reqs,
          act (.obj [("action_type", .str name), ("parameters", .obj kvs)]) env = .ok (ar, reqs) ∧
          ∀ err, ar ≠ ActResult.failure err) ∧
    (∀ name ∈ toolNames, ∀ (kvs : List (String × JVal)) (e t : String) (v : JVal) (reqs : List Req),
        toolRunExc name (.obj kvs) (allErrEnv e t) = (.ok v, reqs) → reqs ≠ [] →
          v = errObj e ∧
          act (.obj [("action_type", .str name), ("parameters", .obj kvs)]) (allErrEnv e t) =
            .ok (.success (errObj e), reqs)) := by
  refine ⟨fun name h kvs env => toolRunExc_isOk name h kvs env, ?_, ?_⟩
  · intro name hname kvs env
    have hok := toolRunExc_isOk name hname kvs env
    rcases hEq : toolRunExc name (.obj kvs) env with ⟨res, rs⟩
    cases res with
    | error err => rw [hEq] at hok; simp [Except.isOk, Except.toBool] at hok
    | ok v =>
        have hmem' : toolNames.contains name = true := List.elem_iff.mpr hname
        exact ⟨classifyResult name v, rs,
          act_registered name hmem' kvs env v rs hEq, classifyResult_ne_failure name v⟩
  · intro name hname kvs e t v reqs h hreqs
    have hv := toolRunExc_errShape name hname kvs e t v reqs h hreqs
    subst hv
    have hmem' : toolNames.contains name = true := List.elem_iff.mpr hname
    exact ⟨rfl, act_registered name hmem' kvs (allErrEnv e t) (errObj e) reqs h⟩

/-- C9 witness: totality and never-Failure at `get_patient_journey` /
`get_today_appointments` with the empty mapping, and the error-conversion
shape when every call dies with "boom". -/
theorem c9_witness :
    (toolRunExc "get_patient_journey" (.obj []) plainEnv).1.isOk = true ∧
    (∃ ar reqs,
        act (.obj [("action_type", .str "get_today_appointments"), ("parameters", .obj [])])
          plainEnv = .ok (ar, reqs) ∧ ∀ err, ar ≠ ActResult.failure err) ∧
    (errObj "boom" = errObj "boom" ∧
     act (.obj [("action_type", .str "get_today_appointments"), ("parameters", .obj [])])
        (allErrEnv "boom" "2026-10-12") =
      .ok (.success (errObj "boom"),
        [Req.get "http://eserver/api/clinicaldocs/VisitDocs/GetRecordset?VisitId=3598&QueryName=GET_TODAYAPPTS"])) :=
  ⟨c9_registered_tools_never_raise.1 "get_patient_journey" (by decide) [] plainEnv,
   c9_registered_tools_never_raise.2.1 "get_today_appointments" (by decide) [] plainEnv,
   c9_registered_tools_never_raise.2.2 "get_today_appointments" (by decide) [] "boom"
     "2026-10-12" (errObj "boom")
     [Req.get "http://eserver/api/clinicaldocs/VisitDocs/GetRecordset?VisitId=3598&QueryName=GET_TODAYAPPTS"]
     rfl (by simp)⟩

/-- An environment whose hospital endpoint returns a JSON array. -/
def arrPayloadEnv : Env := ⟨fun _ => .error "down", fun _ => .ok (.arr []), "2026-10-12"⟩

def JVal.isDict : JVal → Bool
  | .obj _ => true
  | _ => false

/-- C9 counterexample (to the "returns a dict" conjunct): a registered tool
returns `res.json()` verbatim, so an array payload is passed through as an
array, not a dict. -/
theorem c9_counterexample :
    toolRunExc "get_today_appointments" (.obj []) arrPayloadEnv =
      (.ok (.arr []),
       [Req.get "http://eserver/api/clinicaldocs/VisitDocs/GetRecordset?VisitId=3598&QueryName=GET_TODAYAPPTS"]) ∧
    JVal.isDict ((toolRunExc "get_today_appointments" (.obj []) arrPayloadEnv).1.toOption.getD .null) = false :=
  ⟨rfl, rfl⟩

/-! ## Claim C10 -/

/-- C10: when the reasoning output does not select a tool, `chat` checks
`direct_answer` before `out_of_scope` — (1) a present, truthy
`direct_answer` is returned as the answer (no further model call, no
request); (2) the fixed out-of-scope redirect appears only when
`direct_answer` is absent or falsy while `out_of_scope` is truthy; (3) in
particular the parse-failure fallback, which sets both `out_of_scope` and
a non-empty `direct_answer`, yields its `direct_answer`. -/
theorem c10_direct_answer_before_out_of_scope :
    (∀ (h1 : List Msg) (q : String) (r : JVal) (n : Nat) (env : Env) (ut da : JVal),
        pyGet r "use_tool" (.bool false) = .ok ut → truthy ut = false →
        pyIn "direct_answer" r = .ok true →
        pySub r "direct_answer" = .ok da → truthy da = true →
        chatDispatch h1 q r n env = .ok (da, h1 ++ [mkAsst da], n, [])) ∧
    (∀ (h1 : List Msg) (q : String) (r : JVal) (n : Nat) (env : Env) (ut oos : JVal),
        pyGet r "use_tool" (.bool false) = .ok ut → truthy ut = false →
        (pyIn "direct_answer" r = .ok false ∨
          (pyIn "direct_answer" r = .ok true ∧
           ∃ da, pySub r "direct_answer" = .ok da ∧ truthy da = false)) →
        pyGet r "out_of_scope" (.bool false) = .ok oos → truthy oos = true →
        chatDispatch h1 q r n env =
          .ok (outOfScopeMessage, h1 ++ [mkAsst outOfScopeMessage], n, [])) ∧
    (∀ (h1 : List Msg) (q : String) (n : Nat) (env : Env),
        pyGet parseFallback "out_of_scope" (.bool false) = .ok (.bool true) ∧
        pySub parseFallback "direct_answer" =
          .ok (.str "I\x27m having trouble processing your question. Could you please ask specifically about doctor specialties or appointments available at our hospital?") ∧
        chatDispatch h1 q parseFallback n env =
          .ok (.str "I\x27m having trouble processing your question. Could you please ask specifically about doctor specialties or appointments available at our hospital?",
               h1 ++ [mkAsst (.str "I\x27m having trouble processing your question. Could you please ask specifically about doctor specialties or appointments available at our hospital?")],
               n, [])) := by
  refine ⟨?_, ?_, ?_⟩
  · intro h1 q r n env ut da hut htut hin hda htda
    unfold chatDispatch
    simp only [bind, Except.bind, pure, Except.pure, hut, htut, hin, hda, htda,
      Bool.false_eq_true, if_false, if_true]
  · intro h1 q r n env ut oos hut htut hda hoos htoos
    unfold chatDispatch
    rcases hda with hin | ⟨hin, da, hda, htda⟩
    · simp only [bind, Except.bind, pure, Except.pure, hut, htut, hin, hoos, htoos,
        Bool.false_eq_true, if_false, if_true]
    · simp only [bind, Except.bind, pure, Except.pure, hut, htut, hin, hda, htda, hoos, htoos,
        Bool.false_eq_true, if_false, if_true]
  · intro h1 q n env
    exact ⟨rfl, rfl, rfl⟩

/-- C10 witness: the first branch at the parse-failure fallback itself, the
second at a reasoning output with `out_of_scope` set and no
`direct_answer`, and the third at the empty history. -/
theorem c10_witness :
    chatDispatch [] "weather" parseFallback 1 plainEnv =
      .ok (.str "I\x27m having trouble processing your question. Could you please ask specifically about doctor specialties or appointments available at our hospital?",
           [mkAsst (.str "I\x27m having trouble processing your question. Could you please ask specifically about doctor specialties or appointments available at our hospital?")],
           1, []) ∧
    chatDispatch [] "weather"
        (.obj [("use_tool", .bool false), ("out_of_scope", .bool true)]) 1 plainEnv =
      .ok (outOfScopeMessage, [mkAsst outOfScopeMessage], 1, []) ∧
    (pyGet parseFallback "out_of_scope" (.bool false) = .ok (.bool true) ∧
     pySub parseFallback "direct_answer" =
       .ok (.str "I\x27m having trouble processing your question. Could you please ask specifically about doctor specialties or appointments available at our hospital?") ∧
     chatDispatch [] "weather" parseFallback 1 plainEnv =
       .ok (.str "I\x27m having trouble processing your question. Could you please ask specifically about doctor specialties or appointments available at our hospital?",
            [mkAsst (.str "I\x27m having trouble processing your question. Could you please ask specifically about doctor specialties or appointments available at our hospital?")],
            1, [])) :=
  ⟨c10_direct_answer_before_out_of_scope.1 [] "weather" parseFallback 1 plainEnv
     (.bool false)
     (.str "I\x27m having trouble processing your question. Could you please ask specifically about doctor specialties or appointments available at our hospital?")
     rfl rfl rfl rfl (by decide),
   c10_direct_answer_before_out_of_scope.2.1 [] "weather"
     (.obj [("use_tool", .bool false), ("out_of_scope", .bool true)]) 1 plainEnv
     (.bool false) (.bool true) rfl rfl (Or.inl rfl) rfl rfl,
   c10_direct_answer_before_out_of_scope.2.2 [] "weather" 1 plainEnv⟩

end SmartClinic
